import Mathlib

/-!
Verification of the flight-optimiser core against its specification.

The Python sources are shallowly embedded: machine floats become real
numbers, in-place attribute assignment becomes functional record update,
`None`-able references become `Option`, and the external collaborators
(weather provider, aircraft catalog, random choice) become explicit
function parameters ("oracles").  Each embedded definition names the
source file and function it mirrors.
-/

namespace FlightOpt

open scoped Classical

noncomputable section

/-! ## Real-number helpers shared by the geometry code

`math.radians` / `math.degrees`, Python's two-argument `math.atan2`,
and Python's float `%` operator (floored modulus). -/

/-- Embeds `math.radians`: degrees to radians. -/
def radiansOf (x : ℝ) : ℝ := x * Real.pi / 180

/-- Embeds `math.degrees`: radians to degrees. -/
def degreesOf (x : ℝ) : ℝ := x * 180 / Real.pi

/-- Embeds Python `math.atan2 y x` (angle of the point `(x, y)`). -/
def atan2 (y x : ℝ) : ℝ :=
  if 0 < x then Real.arctan (y / x)
  else if x < 0 ∧ 0 ≤ y then Real.arctan (y / x) + Real.pi
  else if x < 0 then Real.arctan (y / x) - Real.pi
  else if 0 < y then Real.pi / 2
  else if y < 0 then -(Real.pi / 2)
  else 0

/-- Embeds Python's `%` on floats: floored modulus `a - b * ⌊a / b⌋`. -/
def pyMod (a b : ℝ) : ℝ := a - b * ⌊a / b⌋

/-! ## utils/geo_utils.py -/

/-- Embeds `geo_utils.calculate_distance`: haversine great-circle
distance in kilometres between two `(latitude, longitude)` pairs. -/
def geoDistance (p1 p2 : ℝ × ℝ) : ℝ :=
  let lat1 := radiansOf p1.1
  let lon1 := radiansOf p1.2
  let lat2 := radiansOf p2.1
  let lon2 := radiansOf p2.2
  let dlon := lon2 - lon1
  let dlat := lat2 - lat1
  let a := Real.sin (dlat / 2) ^ 2 +
    Real.cos lat1 * Real.cos lat2 * Real.sin (dlon / 2) ^ 2
  let c := 2 * atan2 (Real.sqrt a) (Real.sqrt (1 - a))
  6371.0 * c

/-- Embeds `geo_utils.calculate_bearing`: initial great-circle bearing
from `p1` to `p2` in degrees, normalised to `[0, 360)` by
`(degrees(atan2 y x) + 360) % 360`. -/
def calculate_bearing (p1 p2 : ℝ × ℝ) : ℝ :=
  let lat1 := radiansOf p1.1
  let lon1 := radiansOf p1.2
  let lat2 := radiansOf p2.1
  let lon2 := radiansOf p2.2
  let dlon := lon2 - lon1
  let y := Real.sin dlon * Real.cos lat2
  let x := Real.cos lat1 * Real.sin lat2 -
    Real.sin lat1 * Real.cos lat2 * Real.cos dlon
  pyMod (degreesOf (atan2 y x) + 360) 360

/-! ## Data model (models/airport.py, models/waypoint.py, models/route.py)

UUIDs are modelled as natural numbers.  The repository holds two
near-duplicate `Waypoint` models (`models/waypoint.py` with a
`sequence` field and `backend/models/waypoint.py` with `name`/`order`);
we embed the field set actually dereferenced by the code under proof
(`id`, `name`, `latitude`, `longitude`, `order`, `status`). -/

/-- Embeds `WaypointStatus` (union of both model variants). -/
inductive WaypointStatus
  | pending | active | passed | completed | blocked | skipped
  deriving DecidableEq, Repr

/-- Embeds the `Waypoint` data model. -/
structure Waypoint where
  id : ℕ
  name : String
  latitude : ℝ
  longitude : ℝ
  order : ℕ
  status : WaypointStatus

/-- Embeds the `Airport` data model (fields the core dereferences). -/
structure Airport where
  iata_code : String
  name : String
  city : String
  country : String
  latitude : ℝ
  longitude : ℝ

/-- Embeds `Aircraft` (the two fields read by fitness scoring). -/
structure Aircraft where
  fuel_consumption_rate_kg_hr : ℝ
  fuel_capacity_l : ℝ

/-- Embeds one weather-sample dictionary.  The scoring code reads every
key through `.get(key, default)`, so each field is total here with the
`.get` default applied when the provider omitted the key. -/
structure WeatherNode where
  jet_stream_speed_250hPa : ℝ := 0
  jet_stream_direction_250hPa : ℝ := 0
  vertical_velocity_250hPa : ℝ := 0
  cape : ℝ := 0
  cloud_cover_high : ℝ := 0
  visibility : ℝ := 10000
  cloud_cover : ℝ := 0
  precipitation : ℝ := 0
  rain : ℝ := 0
  showers : ℝ := 0
  snowfall : ℝ := 0
  wind_speed_10m : ℝ := 0
  wind_direction_10m : ℝ := 0
  weather_code : ℝ := 0

instance : Inhabited WeatherNode := ⟨{}⟩

/-- Embeds the `Route` data model (models/route.py).  `weather_data` is
the dictionary of per-point samples; scoring only ever reads its list
of values (`weather_data.values()`), so it is embedded as that list in
insertion order.  `reroute_history` stores
(blocked-waypoint-name, alternative-path-type) pairs; the Python
attribute is absent until first written and every reader guards with
`hasattr ... or not ...`, which collapses to emptiness of this list. -/
structure Route where
  id : ℕ
  name : String
  origin : Option Airport
  destination : Option Airport
  waypoints : List Waypoint
  path_type : String
  optimization_method : String
  distance : ℝ
  fitness_score : ℝ
  weather_data : List WeatherNode
  reroute_history : List (String × String)

/-- Embeds `Waypoint.calculate_distance` / `Airport.calculate_distance`
(both are the same haversine formula over the receiver's and the
argument's coordinates). -/
def pointDistance (lat1 lon1 lat2 lon2 : ℝ) : ℝ :=
  geoDistance (lat1, lon1) (lat2, lon2)

/-- Embeds `Route.calculate_total_distance`: origin to first waypoint,
consecutive waypoint legs, last waypoint to destination. -/
def Route.calculate_total_distance (r : Route) : ℝ :=
  let originLeg :=
    match r.origin, r.waypoints.head? with
    | some o, some w0 => pointDistance o.latitude o.longitude w0.latitude w0.longitude
    | _, _ => 0
  let mids := (r.waypoints.zip r.waypoints.tail).foldl
    (fun acc (p : Waypoint × Waypoint) =>
      acc + pointDistance p.1.latitude p.1.longitude p.2.latitude p.2.longitude) 0
  let destLeg :=
    match r.destination, r.waypoints.getLast? with
    | some d, some wl => pointDistance wl.latitude wl.longitude d.latitude d.longitude
    | _, _ => 0
  originLeg + mids + destLeg

/-- Embeds the `self.distance` value in effect inside
`calculate_fitness_score` after its first statement
(`if self.distance <= 0: self.calculate_total_distance()`). -/
def Route.effectiveDistance (r : Route) : ℝ :=
  if r.distance ≤ 0 then r.calculate_total_distance else r.distance

/-- Embeds models/route.py lines 96-102, the flight-heading block of
`calculate_fitness_score`: `degrees(atan2(delta_lon, delta_lat)) % 360`
on raw coordinate deltas when both endpoints are present, else 0. -/
def Route.flightHeading (r : Route) : ℝ :=
  match r.origin, r.destination with
  | some o, some d =>
      let delta_lat := d.latitude - o.latitude
      let delta_lon := d.longitude - o.longitude
      pyMod (degreesOf (atan2 delta_lon delta_lat)) 360
  | _, _ => 0

/-- Embeds the weather-aware branch of `Route.calculate_fitness_score`
(models/route.py lines 104-224), evaluated with distance `dist`,
heading `heading`, and weather values `nodes` (`len(nodes) ≥ 2` in the
caller). -/
def weatherAwareScore (aircraft : Option Aircraft)
    (weather_weight distance_weight : ℝ)
    (dist heading : ℝ) (nodes : List WeatherNode) : ℝ :=
  let airspeed : ℝ := 900
  let speedSum := nodes.foldl (fun acc node =>
    let jet_stream_component := node.jet_stream_speed_250hPa *
      Real.cos (radiansOf |heading - node.jet_stream_direction_250hPa|)
    acc + max (airspeed + jet_stream_component) (airspeed * 0.5)) 0
  let avg_ground_speed := speedSum / (nodes.length : ℝ)
  let flight_time_hours := dist / avg_ground_speed
  let fuel_consumption_rate :=
    match aircraft with
    | some a => a.fuel_consumption_rate_kg_hr
    | none => 3000
  let fuel_capacity_kg :=
    match aircraft with
    | some a => a.fuel_capacity_l * 0.8
    | none => 70000
  let fuel_consumption_kg := fuel_consumption_rate * flight_time_hours
  let fuel_penalty :=
    if fuel_capacity_kg < fuel_consumption_kg then
      (fuel_consumption_kg - fuel_capacity_kg) / fuel_capacity_kg * 10
    else 0
  let turbulence_risk := ((nodes.filter
    (fun node => 0.5 < |node.vertical_velocity_250hPa|)).length : ℝ)
  let turbulence_penalty := turbulence_risk / (nodes.length : ℝ) * 2
  let thunderstorm_risk := ((nodes.filter
    (fun node => 1000 < node.cape ∨ 80 < node.cloud_cover_high)).length : ℝ)
  let thunderstorm_penalty := thunderstorm_risk / (nodes.length : ℝ) * 3
  let source_weather := nodes.headI
  let dest_weather := nodes.getLastI
  let visibility_penalty :=
    if source_weather.visibility < 5000 ∨ dest_weather.visibility < 5000
    then (1 : ℝ) else 0
  let cloud_cover_penalty :=
    if 80 < source_weather.cloud_cover ∨ 80 < dest_weather.cloud_cover
    then (0.5 : ℝ) else 0
  let runway_risk := (([source_weather, dest_weather].filter (fun w =>
    10 < w.precipitation ∨ 5 < w.rain ∨ 5 < w.showers ∨ 1 < w.snowfall)).length : ℝ)
  let runway_penalty := runway_risk * 0.75
  let crosswind_penalty := [source_weather, dest_weather].foldl (fun acc w =>
    let crosswind_component := w.wind_speed_10m *
      Real.sin (radiansOf |heading - w.wind_direction_10m|)
    if 20 < crosswind_component then acc + 0.5 else acc) 0
  let weather_hazard_penalty := [source_weather, dest_weather].foldl (fun acc w =>
    if 50 < w.weather_code then acc + 0.3 else acc) 0
  let safety_score := turbulence_penalty + thunderstorm_penalty +
    visibility_penalty + cloud_cover_penalty + runway_penalty +
    crosswind_penalty + weather_hazard_penalty
  let normalized_fuel := fuel_consumption_kg / 10000
  let base := weather_weight * safety_score +
    distance_weight * normalized_fuel + fuel_penalty
  if 5000 < dist then base + (dist - 5000) / 1000 else base

/-- Embeds `Route.calculate_fitness_score` (models/route.py): falls back
to `distance / 1000` when the weather map is empty or holds fewer than
two values, otherwise runs the weather-aware scoring with the flight
heading of `Route.flightHeading`.  Returns the score the Python method
both returns and stores into `self.fitness_score`. -/
def Route.calculate_fitness_score (r : Route) (aircraft : Option Aircraft := none)
    (weather_weight : ℝ := 0.6) (distance_weight : ℝ := 0.4) : ℝ :=
  let dist := r.effectiveDistance
  if r.weather_data = [] then dist / 1000
  else
    let weather_nodes := r.weather_data
    if weather_nodes.length < 2 then dist / 1000
    else weatherAwareScore aircraft weather_weight distance_weight
      dist r.flightHeading weather_nodes

/-! ## services/path_calculator.py -/

/-- Embeds `PathCalculator.calculate_position`: position along the
great circle from start to end at the given fraction of the distance,
with the initial bearing rotated by `deflection_angle` degrees.
`PathCalculator.calculate_distance` and `.calculate_bearing` are the
same haversine/bearing formulas embedded above as `pointDistance` and
`calculate_bearing`. -/
def calculate_position (start_lat start_lon end_lat end_lon
    fraction deflection_angle : ℝ) : ℝ × ℝ :=
  let start_lat_rad := radiansOf start_lat
  let start_lon_rad := radiansOf start_lon
  let distance := pointDistance start_lat start_lon end_lat end_lon
  let initial_bearing_rad :=
    radiansOf (calculate_bearing (start_lat, start_lon) (end_lat, end_lon))
  let bearing_rad := initial_bearing_rad + radiansOf deflection_angle
  let dist_rad := distance * fraction / 6371.0
  let lat_rad := Real.arcsin (Real.sin start_lat_rad * Real.cos dist_rad +
    Real.cos start_lat_rad * Real.sin dist_rad * Real.cos bearing_rad)
  let lon_rad := start_lon_rad +
    atan2 (Real.sin bearing_rad * Real.sin dist_rad * Real.cos start_lat_rad)
      (Real.cos dist_rad - Real.sin start_lat_rad * Real.sin lat_rad)
  (degreesOf lat_rad, degreesOf lon_rad)

/-! ## backend/services/route_generator.py

The candidate generator.  `uuid4()` calls are supplied by an explicit
id stream, the weather collaborator by a function parameter, and the
aircraft-catalog lookup by an optional `Aircraft`.  The on-disk route
cache is out of scope (spec section 1) and is omitted, i.e. the
`use_cache = False` path is embedded. -/

/-- Embeds one excluded-area dictionary carrying both the `center`
latitude/longitude and `radius_km` keys that
`_is_in_excluded_area` reads. -/
structure ExcludedArea where
  center_latitude : ℝ
  center_longitude : ℝ
  radius_km : ℝ

/-- Embeds `RouteGenerator._is_in_excluded_area`: whether coordinates
fall within `radius_km` of any area's center. -/
def isInExcludedArea (coords : ℝ × ℝ) (excluded_areas : List ExcludedArea) : Bool :=
  excluded_areas.any (fun area =>
    decide (pointDistance coords.1 coords.2
      area.center_latitude area.center_longitude ≤ area.radius_km))

/-- Embeds the waypoint display name `WP{n}_{route_type}`. -/
def wpName (n : ℕ) (route_type : String) : String :=
  "WP" ++ toString n ++ "_" ++ route_type

/-- Embeds the per-type mid control-point offsets of
`_calculate_waypoints` (applied both at the initial offset computation
and at each exclusion-avoidance adjustment step). -/
def offsetControlPoint (lat_diff lon_diff offset_magnitude : ℝ)
    (route_type : String) (mid : ℝ × ℝ) : ℝ × ℝ :=
  if route_type = "left" then
    (mid.1 + lon_diff * offset_magnitude, mid.2 - lat_diff * offset_magnitude)
  else if route_type = "right" then
    (mid.1 - lon_diff * offset_magnitude, mid.2 + lat_diff * offset_magnitude)
  else if route_type = "wide" then
    (mid.1 + lon_diff * offset_magnitude * 1.5, mid.2 - lat_diff * offset_magnitude * 1.5)
  else if route_type = "north" then
    (mid.1 + offset_magnitude * 2, mid.2)
  else if route_type = "south" then
    (mid.1 - offset_magnitude * 2, mid.2)
  else mid

/-- Embeds the `while attempts < 5 and _is_in_excluded_area(...)`
adjustment loop of `_calculate_waypoints`: grow the offset by 1.5 and
push the current control point further, up to 5 attempts, accepting
the last candidate afterwards. -/
def adjustControlPoint (excluded_areas : List ExcludedArea)
    (lat_diff lon_diff : ℝ) (route_type : String) :
    ℕ → ℝ → ℝ × ℝ → ℝ × ℝ
  | 0, _, mid => mid
  | n + 1, offset_magnitude, mid =>
      if isInExcludedArea mid excluded_areas then
        let offset2 := offset_magnitude * 1.5
        adjustControlPoint excluded_areas lat_diff lon_diff route_type n offset2
          (offsetControlPoint lat_diff lon_diff offset2 route_type mid)
      else mid

/-- Embeds `RouteGenerator._calculate_waypoints`
(backend/services/route_generator.py lines 228-399): 20 waypoints, the
first pinned to the origin's exact coordinates and the last to the
destination's; intermediate points on the great circle for `direct`
and on a quadratic Bezier curve otherwise.  `ids i` supplies the
`uuid4()` for the waypoint with order `i + 1`.  (The Python code also
computes `bearing = origin.calculate_bearing(destination)`, unused in
this file variant.) -/
def calculateWaypoints (ids : ℕ → ℕ) (origin destination : Airport)
    (route_type : String) (excluded_areas : List ExcludedArea) : List Waypoint :=
  let direct_distance := pointDistance origin.latitude origin.longitude
    destination.latitude destination.longitude
  let num_waypoints : ℕ := 20
  if route_type = "direct" then
    let first := Waypoint.mk (ids 0) (wpName 1 route_type)
      origin.latitude origin.longitude 1 .pending
    let inner := (List.range (num_waypoints - 2)).map (fun j =>
      let i : ℕ := j + 1
      let progress := (i : ℝ) / ((num_waypoints : ℝ) - 1)
      let coords := calculate_position origin.latitude origin.longitude
        destination.latitude destination.longitude progress 0
      Waypoint.mk (ids i) (wpName (i + 1) route_type) coords.1 coords.2 (i + 1) .pending)
    let last := Waypoint.mk (ids (num_waypoints - 1)) (wpName num_waypoints route_type)
      destination.latitude destination.longitude num_waypoints .pending
    first :: inner ++ [last]
  else
    let start_coords := (origin.latitude, origin.longitude)
    let end_coords := (destination.latitude, destination.longitude)
    let mid0 := ((start_coords.1 + end_coords.1) / 2, (start_coords.2 + end_coords.2) / 2)
    let lat_diff := end_coords.1 - start_coords.1
    let lon_diff := end_coords.2 - start_coords.2
    let offset_magnitude := min 0.2 (direct_distance / 2000)
    let mid1 := offsetControlPoint lat_diff lon_diff offset_magnitude route_type mid0
    let mid :=
      if excluded_areas ≠ [] then
        adjustControlPoint excluded_areas lat_diff lon_diff route_type 5
          offset_magnitude mid1
      else mid1
    let first := Waypoint.mk (ids 0) (wpName 1 route_type)
      origin.latitude origin.longitude 1 .pending
    let inner := (List.range (num_waypoints - 2)).map (fun j =>
      let i : ℕ := j + 1
      let t := (i : ℝ) / ((num_waypoints : ℝ) - 1)
      let lat := (1 - t) ^ 2 * start_coords.1 + 2 * (1 - t) * t * mid.1 +
        t ^ 2 * end_coords.1
      let lon := (1 - t) ^ 2 * start_coords.2 + 2 * (1 - t) * t * mid.2 +
        t ^ 2 * end_coords.2
      Waypoint.mk (ids i) (wpName (i + 1) route_type) lat lon (i + 1) .pending)
    let last := Waypoint.mk (ids (num_waypoints - 1)) (wpName num_waypoints route_type)
      destination.latitude destination.longitude num_waypoints .pending
    first :: inner ++ [last]

/-- Embeds `RouteGenerator._generate_route`: builds the Route shell,
fills waypoints, recomputes the total distance, attaches the weather
collaborator's samples and stores the fitness score.  `_generate_route`
never returns `None`. -/
def generateRoute (routeId : ℕ) (ids : ℕ → ℕ)
    (weather : Route → List WeatherNode) (origin destination : Airport)
    (route_type : String) (aircraft : Option Aircraft)
    (excluded_areas : List ExcludedArea) : Route :=
  let route0 : Route :=
    { id := routeId,
      name := origin.iata_code ++ "-" ++ destination.iata_code ++ " (" ++ route_type ++ ")",
      origin := some origin, destination := some destination,
      waypoints := calculateWaypoints ids origin destination route_type excluded_areas,
      path_type := route_type, optimization_method := "",
      distance := 0, fitness_score := 0, weather_data := [], reroute_history := [] }
  let route1 := { route0 with distance := route0.calculate_total_distance }
  let route2 := { route1 with weather_data := weather route1 }
  { route2 with fitness_score := route2.calculate_fitness_score aircraft }

/-- Embeds `RouteGenerator.generate_alternative_routes`: returns `[]`
when origin or destination is null, defaults an empty `route_types`
list to the six standard types, and builds one route per type.
`routeIds k` / `ids k` supply the fresh ids for the route at position
`k`. -/
def generate_alternative_routes (routeIds : ℕ → ℕ) (ids : ℕ → ℕ → ℕ)
    (weather : Route → List WeatherNode)
    (origin destination : Option Airport) (route_types : List String)
    (aircraft : Option Aircraft) (excluded_areas : List ExcludedArea) :
    List Route :=
  match origin, destination with
  | some o, some d =>
      let types :=
        if route_types = [] then
          ["direct", "left", "right", "north", "south", "wide"]
        else route_types
      types.enum.map (fun p =>
        generateRoute (routeIds p.1) (ids p.1) weather o d p.2 aircraft excluded_areas)
  | _, _ => []

/-! ## Shared modelling helpers for the optimizers

Random draws (`np.random.choice`, `random.choice`, `random.choices`,
`random.sample`) are modelled by index oracles reduced modulo the list
length, so a draw from a nonempty list is always one of its elements,
exactly as in Python. -/

instance : Inhabited Waypoint :=
  ⟨{ id := 0, name := "", latitude := 0, longitude := 0, order := 0,
     status := WaypointStatus.pending }⟩

instance : Inhabited Route :=
  ⟨{ id := 0, name := "", origin := none, destination := none,
     waypoints := [], path_type := "direct", optimization_method := "",
     distance := 0, fitness_score := 0, weather_data := [],
     reroute_history := [] }⟩

/-- Models drawing one element of `l` (the oracle supplies the raw
index `i`, reduced modulo the length). -/
def pyChoice {α : Type} [Inhabited α] (l : List α) (i : ℕ) : α :=
  l.getD (i % l.length) default

/-- Embeds Python's `min(...)` over a nonempty collection given as
head and tail: the first element of minimal value under `key`. -/
def pyMinByKey {α : Type} (key : α → ℝ) (a : α) (l : List α) : α :=
  l.foldl (fun acc q => if key q < key acc then q else acc) a

/-- Embeds Python's stable `sort(key=...)` as insertion by key. -/
def insertByKey {α : Type} (key : α → ℝ) (a : α) : List α → List α
  | [] => [a]
  | b :: rest => if key b ≤ key a then b :: insertByKey key a rest
      else a :: b :: rest

/-- Embeds Python's stable `sorted(..., key=...)`. -/
def pySortByKey {α : Type} (key : α → ℝ) : List α → List α
  | [] => []
  | a :: rest => insertByKey key a (pySortByKey key rest)

/-! ## utils/distance_calculator.py -/

/-- Embeds `normalize_distance` with the environment defaults
(min 100 km, max 5000 km). -/
def normalize_distance (distance_km : ℝ) (min_distance : ℝ := 100)
    (max_distance : ℝ := 5000) : ℝ :=
  let bounded_distance := max min_distance (min distance_km max_distance)
  (bounded_distance - min_distance) / (max_distance - min_distance)

/-! ## services/optimization/aco.py and genetic.py

Both files share the `_evaluate_fitness` blend.  Its weather term calls
`WeatherService.calculate_route_weather_score`, which is absent from
the sources (only these callers exist); it is the abstract parameter
`ws` below.  The code reads `route.distance_km`, an attribute the Route
model spells `distance` (the spec flags this rename); the embedded read
uses the `distance` field. -/

/-- Embeds `AntColonyOptimizer._evaluate_fitness` (aco.py lines
137-150) and the identical `GeneticAlgorithm._evaluate_fitness`
(genetic.py lines 129-142): `weather_score * w + normalized_distance *
(1 - w)` with the weather-vs-distance weight `w` (default 0.7). -/
def evalFitnessBlend (ws : Route → ℝ) (w : ℝ) (route : Route) : ℝ :=
  ws route * w + normalize_distance route.distance * (1 - w)

/-- State threaded through the `AntColonyOptimizer.optimize` loop:
the pheromone map (keyed by route id) and the best route/fitness pair
(`None`/`inf` at start, here `none`). -/
structure AcoState where
  pheromones : ℕ → ℝ
  best : Option (Route × ℝ)

/-- Embeds `AntColonyOptimizer._calculate_probabilities`. -/
def acoCalculateProbabilities (ws : Route → ℝ) (w alpha beta : ℝ)
    (routes : List Route) (pheromones : ℕ → ℝ) : List ℝ :=
  let probabilities := routes.map (fun route =>
    let fitness := evalFitnessBlend ws w route
    let heuristic := 1.0 / (fitness + 0.0001)
    let pheromone_factor := Real.rpow (pheromones route.id) alpha
    let heuristic_factor := Real.rpow heuristic beta
    pheromone_factor * heuristic_factor)
  let total := probabilities.sum
  if 0 < total then probabilities.map (fun p => p / total)
  else routes.map (fun _ => 1.0 / (routes.length : ℝ))

/-- Embeds `AntColonyOptimizer._update_pheromones`: evaporate every
entry, then deposit `1 / (fitness + 0.0001)` on the selected route. -/
def acoUpdatePheromones (evaporation_rate : ℝ) (selected : Route)
    (fitness : ℝ) (pheromones : ℕ → ℝ) : ℕ → ℝ :=
  fun routeId =>
    let evaporated := pheromones routeId * (1 - evaporation_rate)
    if routeId = selected.id then evaporated + 1.0 / (fitness + 0.0001)
    else evaporated

/-- Embeds one iteration of the `AntColonyOptimizer.optimize` loop
(aco.py lines 53-77): compute probabilities, select a route
(`np.random.choice` modelled by the index oracle `sel`), evaluate its
fitness, update the best pair only on a strictly lower score, and
update the pheromones. -/
def acoIter (ws : Route → ℝ) (w alpha beta evaporation_rate : ℝ)
    (routes : List Route) (sel : ℕ → List ℝ → ℕ) (k : ℕ)
    (s : AcoState) : AcoState :=
  let probabilities := acoCalculateProbabilities ws w alpha beta routes s.pheromones
  let selected_route := pyChoice routes (sel k probabilities)
  let fitness := evalFitnessBlend ws w selected_route
  let best2 :=
    match s.best with
    | none => some (selected_route, fitness)
    | some (br, bf) =>
        if fitness < bf then some (selected_route, fitness) else some (br, bf)
  { pheromones := acoUpdatePheromones evaporation_rate selected_route fitness s.pheromones,
    best := best2 }

/-- The optimizer state after `k` iterations of `acoIter`, from the
initial all-ones pheromone map and empty best. -/
def acoStateAfter (ws : Route → ℝ) (w alpha beta evaporation_rate : ℝ)
    (routes : List Route) (sel : ℕ → List ℝ → ℕ) : ℕ → AcoState
  | 0 => { pheromones := fun _ => 1.0, best := none }
  | k + 1 => acoIter ws w alpha beta evaporation_rate routes sel k
      (acoStateAfter ws w alpha beta evaporation_rate routes sel k)

/-- The tracked best fitness of a state, `inf` (here `⊤`) when no best
route has been recorded yet. -/
def acoBestFitness (s : AcoState) : WithTop ℝ :=
  match s.best with
  | none => ⊤
  | some (_, bf) => (bf : WithTop ℝ)

/-- The fitness sampled at iteration `k` of the run. -/
def acoSampledFitness (ws : Route → ℝ) (w alpha beta evaporation_rate : ℝ)
    (routes : List Route) (sel : ℕ → List ℝ → ℕ) (k : ℕ) : ℝ :=
  let s := acoStateAfter ws w alpha beta evaporation_rate routes sel k
  evalFitnessBlend ws w (pyChoice routes
    (sel k (acoCalculateProbabilities ws w alpha beta routes s.pheromones)))

/-- Embeds `AntColonyOptimizer.optimize` (aco.py): `None` on an empty
candidate list, otherwise run the iterations and write
`optimization_method = "aco"` and `fitness_score = best_fitness` onto
the best route (lines 79-84). -/
def antColonyOptimize (ws : Route → ℝ) (w alpha beta evaporation_rate : ℝ)
    (iterations : ℕ) (sel : ℕ → List ℝ → ℕ) (routes : List Route) :
    Option Route :=
  if routes = [] then none
  else
    match (acoStateAfter ws w alpha beta evaporation_rate routes sel iterations).best with
    | none => none
    | some (br, bf) =>
        some { br with optimization_method := "aco", fitness_score := bf }

/-- Oracle bundle for the random draws of `GeneticAlgorithm.optimize`
(genetic.py), indexed by generation and slot: the initial population
choices, the two tournament draws of `_selection` (head index plus
further indices, giving Python's nonempty `random.sample`), the
mutation coin and the mutation replacement choice. -/
structure GaOracle where
  initChoice : ℕ → ℕ
  samp1 : ℕ → ℕ → ℕ × List ℕ
  samp2 : ℕ → ℕ → ℕ × List ℕ
  mutRoll : ℕ → ℕ → ℝ
  mutChoice : ℕ → ℕ → ℕ

/-- Embeds `GeneticAlgorithm._selection` (genetic.py): draw a
tournament from the scored pairs and return the entry with the best
(lowest) fitness, Python's `min` keeping the first minimum. -/
def gaSelection (fitness_results : List (Route × ℝ)) (draw : ℕ × List ℕ) :
    Route × ℝ :=
  pyMinByKey Prod.snd (pyChoice fitness_results draw.1)
    (draw.2.map (pyChoice fitness_results))

/-- Embeds `GeneticAlgorithm._crossover` (genetic.py): the fitter
parent (ties favour the first). -/
def gaCrossover (ws : Route → ℝ) (w : ℝ) (parent1 parent2 : Route) : Route :=
  if evalFitnessBlend ws w parent1 ≤ evalFitnessBlend ws w parent2
  then parent1 else parent2

/-- State threaded through the `GeneticAlgorithm.optimize` loop. -/
structure GaState where
  population : List Route
  best : Option (Route × ℝ)

/-- Embeds the child-filling `while` loop of a generation (genetic.py
lines 83-95): select two parents, cross them over, mutate with
probability `mutation_rate`, and append, until `n` children are added. -/
def gaFill (ws : Route → ℝ) (w mutation_rate : ℝ) (routes : List Route)
    (orc : GaOracle) (gen : ℕ) (fitness_results : List (Route × ℝ)) :
    ℕ → List Route → List Route
  | 0, acc => acc
  | n + 1, acc =>
      let slot := acc.length
      let parent1 := (gaSelection fitness_results (orc.samp1 gen slot)).1
      let parent2 := (gaSelection fitness_results (orc.samp2 gen slot)).1
      let child0 := gaCrossover ws w parent1 parent2
      let child :=
        if orc.mutRoll gen slot < mutation_rate
        then pyChoice routes (orc.mutChoice gen slot)
        else child0
      gaFill ws w mutation_rate routes orc gen fitness_results n (acc ++ [child])

/-- Embeds one generation of `GeneticAlgorithm.optimize` (genetic.py
lines 59-98): score the population, sort ascending, update the best
pair on a strictly lower leading score, keep the elite and fill the
rest by selection/crossover/mutation.  (An empty population, for which
Python's `fitness_results[0]` would raise, leaves the best unchanged.) -/
def gaGeneration (ws : Route → ℝ) (w mutation_rate : ℝ)
    (elite_size population_size : ℕ) (routes : List Route) (orc : GaOracle)
    (gen : ℕ) (s : GaState) : GaState :=
  let fitness_results := s.population.map (fun route =>
    (route, evalFitnessBlend ws w route))
  let sorted := pySortByKey Prod.snd fitness_results
  let best2 :=
    match sorted.head? with
    | none => s.best
    | some (r0, f0) =>
        match s.best with
        | none => some (r0, f0)
        | some (br, bf) => if f0 < bf then some (r0, f0) else some (br, bf)
  let elite_routes := (sorted.take elite_size).map Prod.fst
  let next_generation := gaFill ws w mutation_rate routes orc gen sorted
    (population_size - elite_routes.length) elite_routes
  { population := next_generation, best := best2 }

/-- The genetic-algorithm state after `g` generations from the initial
random population. -/
def gaStateAfter (ws : Route → ℝ) (w mutation_rate : ℝ)
    (elite_size population_size : ℕ) (routes : List Route)
    (orc : GaOracle) : ℕ → GaState
  | 0 => { population := (List.range population_size).map
             (fun k => pyChoice routes (orc.initChoice k)),
           best := none }
  | g + 1 => gaGeneration ws w mutation_rate elite_size population_size routes
      orc g (gaStateAfter ws w mutation_rate elite_size population_size routes orc g)

/-- Embeds `GeneticAlgorithm.optimize` (genetic.py): `None` on an empty
candidate list, otherwise run the generations and write
`optimization_method = "genetic"` and `fitness_score = best_fitness`
onto the best route (lines 105-110). -/
def geneticAlgorithmOptimize (ws : Route → ℝ) (w mutation_rate : ℝ)
    (elite_size population_size generations : ℕ) (orc : GaOracle)
    (routes : List Route) : Option Route :=
  if routes = [] then none
  else
    match (gaStateAfter ws w mutation_rate elite_size population_size routes
        orc generations).best with
    | none => none
    | some (br, bf) =>
        some { br with optimization_method := "genetic", fitness_score := bf }

/-! ## services/optimization/aco_optimizer.py

The simpler ant-colony variant.  Calls to
`route.calculate_fitness_score()` are modelled as reads of the
embedded deterministic `Route.calculate_fitness_score`; the Python
method also stores that same value back into `route.fitness_score`,
which changes no branch taken here. -/

/-- State of the `ACOOptimizer.optimize` loop: pheromone map and the
best route/score pair. -/
structure Aco2State where
  pheromone : ℕ → ℝ
  best : Option (Route × ℝ)

/-- Embeds `ACOOptimizer._select_route` (aco_optimizer.py lines
60-77): probability scores from pheromone and heuristic, then an
`np.random.choice` draw modelled by the index oracle (both the
zero-total fallback and the weighted draw return an element of
`routes`). -/
def aco2SelectRoute (alpha beta : ℝ) (pheromone : ℕ → ℝ)
    (routes : List Route) (idx : ℕ) : Route :=
  let scores := routes.map (fun route =>
    let phero := Real.rpow (pheromone route.id) alpha
    let heuristic := Real.rpow (1.0 / max 0.001 route.calculate_fitness_score) beta
    phero * heuristic)
  let total := scores.sum
  if total = 0 then pyChoice routes idx
  else pyChoice routes idx

/-- Embeds the per-iteration score dictionary update
`all_scores[route.id] = score` (insertion-ordered, overwriting). -/
def dictInsert (k : ℕ) (v : ℝ) (d : List (ℕ × ℝ)) : List (ℕ × ℝ) :=
  if d.any (fun p => p.1 = k) then
    d.map (fun p => if p.1 = k then (k, v) else p)
  else d ++ [(k, v)]

/-- Embeds `ACOOptimizer._update_pheromone`: evaporate all entries,
then deposit `1 / score` for each positive recorded score. -/
def aco2UpdatePheromone (evaporation_rate : ℝ) (scores : List (ℕ × ℝ))
    (pheromone : ℕ → ℝ) : ℕ → ℝ :=
  fun routeId =>
    let evaporated := pheromone routeId * (1 - evaporation_rate)
    match scores.find? (fun p => p.1 = routeId) with
    | some (_, score) => if 0 < score then evaporated + 1.0 / score else evaporated
    | none => evaporated

/-- Embeds the inner ant loop of `ACOOptimizer.optimize` (lines
194-201): select, score, record, and update the best pair on a
strictly lower score. -/
def aco2AntStep (alpha beta : ℝ) (routes : List Route)
    (sel : ℕ → ℕ → ℕ) (it ant : ℕ) (st : Aco2State × List (ℕ × ℝ)) :
    Aco2State × List (ℕ × ℝ) :=
  let route := aco2SelectRoute alpha beta st.1.pheromone routes (sel it ant)
  let score := route.calculate_fitness_score
  let all_scores := dictInsert route.id score st.2
  let best2 :=
    match st.1.best with
    | none => some (route, score)
    | some (br, bf) => if score < bf then some (route, score) else some (br, bf)
  ({ pheromone := st.1.pheromone, best := best2 }, all_scores)

/-- Embeds one iteration of `ACOOptimizer.optimize`: run `ants` ant
steps on a fresh score dictionary, then update the pheromones. -/
def aco2Iter (alpha beta evaporation_rate : ℝ) (ants : ℕ)
    (routes : List Route) (sel : ℕ → ℕ → ℕ) (it : ℕ)
    (s : Aco2State) : Aco2State :=
  let stepped := (List.range ants).foldl
    (fun st ant => aco2AntStep alpha beta routes sel it ant st) (s, [])
  { pheromone := aco2UpdatePheromone evaporation_rate stepped.2 stepped.1.pheromone,
    best := stepped.1.best }

/-- The `ACOOptimizer` state after `k` outer iterations. -/
def aco2StateAfter (alpha beta evaporation_rate : ℝ) (ants : ℕ)
    (routes : List Route) (sel : ℕ → ℕ → ℕ) : ℕ → Aco2State
  | 0 => { pheromone := fun _ => 1.0, best := none }
  | k + 1 => aco2Iter alpha beta evaporation_rate ants routes sel k
      (aco2StateAfter alpha beta evaporation_rate ants routes sel k)

/-- Embeds `ACOOptimizer.optimize` (aco_optimizer.py lines 39-58):
`None` on empty input, otherwise run the loop and write only
`optimization_method = "aco"` onto the best route. -/
def aco2Optimize (alpha beta evaporation_rate : ℝ) (ants iterations : ℕ)
    (sel : ℕ → ℕ → ℕ) (routes : List Route) : Option Route :=
  if routes = [] then none
  else
    match (aco2StateAfter alpha beta evaporation_rate ants routes sel iterations).best with
    | none => none
    | some (br, _) => some { br with optimization_method := "aco" }

/-! ## services/optimization/genetic_optimizer.py -/

/-- Oracle bundle for `GeneticOptimizer` (genetic_optimizer.py):
initial `random.choices`, the two `random.sample` parent draws, the
mutation coin and the `_mutate` replacement choice. -/
structure Gen2Oracle where
  initChoice : ℕ → ℕ
  par1 : ℕ → ℕ → ℕ
  par2 : ℕ → ℕ → ℕ
  mutRoll : ℕ → ℕ → ℝ
  mutChoice : ℕ → ℕ → ℕ

/-- Embeds `GeneticOptimizer._selection` (genetic_optimizer.py lines
210-215): two parents drawn from the better slice
`scored[:max(tournament_size, len(scored)//2)]`. -/
def gen2Selection (scored : List Route) (i1 i2 : ℕ) : Route × Route :=
  let tournament_size := min 5 scored.length
  let slice := scored.take (max tournament_size (scored.length / 2))
  (pyChoice slice i1, pyChoice slice i2)

/-- Embeds `GeneticOptimizer._crossover`: the parent with the better
(lower) fitness, ties favouring the first. -/
def gen2Crossover (parent1 parent2 : Route) : Route :=
  if parent1.calculate_fitness_score ≤ parent2.calculate_fitness_score
  then parent1 else parent2

/-- Embeds `GeneticOptimizer._mutate`: replace by a random different
route (by id) when one exists. -/
def gen2Mutate (route : Route) (all_routes : List Route) (i : ℕ) : Route :=
  let alternatives := all_routes.filter (fun r => r.id ≠ route.id)
  if alternatives ≠ [] then pyChoice alternatives i else route

/-- Embeds the child-filling `while` loop of a `GeneticOptimizer`
generation (lines 190-199). -/
def gen2Fill (mutation_rate : ℝ) (routes : List Route) (orc : Gen2Oracle)
    (gen : ℕ) (scored : List Route) : ℕ → List Route → List Route
  | 0, acc => acc
  | n + 1, acc =>
      let slot := acc.length
      let parents := gen2Selection scored (orc.par1 gen slot) (orc.par2 gen slot)
      let child0 := gen2Crossover parents.1 parents.2
      let child :=
        if orc.mutRoll gen slot < mutation_rate
        then gen2Mutate child0 routes (orc.mutChoice gen slot)
        else child0
      gen2Fill mutation_rate routes orc gen scored n (acc ++ [child])

/-- Embeds one generation of `GeneticOptimizer.optimize` (lines
180-201): sort by fitness, keep the elite, fill the rest. -/
def gen2Generation (mutation_rate : ℝ) (elite_size population_size : ℕ)
    (routes : List Route) (orc : Gen2Oracle) (gen : ℕ)
    (population : List Route) : List Route :=
  let scored := pySortByKey Route.calculate_fitness_score population
  let next_gen := scored.take elite_size
  gen2Fill mutation_rate routes orc gen scored
    (population_size - next_gen.length) next_gen

/-- The `GeneticOptimizer` population after `g` generations. -/
def gen2PopulationAfter (mutation_rate : ℝ) (elite_size population_size : ℕ)
    (routes : List Route) (orc : Gen2Oracle) : ℕ → List Route
  | 0 => (List.range population_size).map
      (fun k => pyChoice routes (orc.initChoice k))
  | g + 1 => gen2Generation mutation_rate elite_size population_size routes orc g
      (gen2PopulationAfter mutation_rate elite_size population_size routes orc g)

/-- Embeds `GeneticOptimizer.optimize` (genetic_optimizer.py lines
165-208): `None` on empty input; the sole candidate when fewer than
two are given; otherwise run the generations and return the final
population's best with `optimization_method = "genetic"` written on.
(An empty final population, where Python's `min` would raise, maps to
`none`.) -/
def gen2Optimize (mutation_rate : ℝ) (elite_size population_size generations : ℕ)
    (orc : Gen2Oracle) (routes : List Route) : Option Route :=
  if routes = [] then none
  else if routes.length < 2 then routes.head?
  else
    match gen2PopulationAfter mutation_rate elite_size population_size routes
        orc generations with
    | [] => none
    | p :: rest =>
        let best_route := pyMinByKey Route.calculate_fitness_score p rest
        some { best_route with optimization_method := "genetic" }

/-! ## services/optimization/ppo_rerouter.py

The reroute splicer.  `geodesic` from the external geopy library is an
oracle parameter; `uuid4()` draws are id streams.  Python `-1`
sentinel indices are embedded as `ℤ`. -/

/-- Embeds Python `list.index(x)`: the first index whose element
equals `x`, `none` for the raised `ValueError`. -/
def pyIndex {α : Type} (l : List α) (x : α) : Option ℕ :=
  match l with
  | [] => none
  | a :: rest => if a = x then some 0 else (pyIndex rest x).map (· + 1)

/-- Embeds the `for i, wp in enumerate(...)` scans of
`_create_rerouted_path` that keep overwriting the index on every id
match: the LAST matching index, `-1` if none. -/
def lastIdxById (l : List Waypoint) (wid : ℕ) : ℤ :=
  l.enum.foldl (fun acc p => if p.2.id = wid then (p.1 : ℤ) else acc) (-1)

/-- Embeds the nearest-by-coordinates fallback scan of
`_create_rerouted_path` (geopy geodesic distance `geodist`, running
minimum starting from infinity, index `-1` when the list is empty). -/
def nearestIdxByDist (geodist : ℝ × ℝ → ℝ × ℝ → ℝ) (l : List Waypoint)
    (wp : Waypoint) : ℤ :=
  (l.enum.foldl (fun (acc : Option ℝ × ℤ) p =>
    let d := geodist (wp.latitude, wp.longitude) (p.2.latitude, p.2.longitude)
    match acc.1 with
    | none => (some d, (p.1 : ℤ))
    | some md => if d < md then (some d, (p.1 : ℤ)) else acc) (none, -1)).2

/-- Embeds the waypoint-renaming helper inside `_create_rerouted_path`
(lines 226-234): the path-type tag is the part after the last
underscore of the original name, `alt` when the name has no underscore. -/
def extractRouteType (name : String) : String :=
  let original_name_parts := name.splitOn "_"
  if 1 < original_name_parts.length then original_name_parts.getLastD "alt"
  else "alt"

/-- Embeds `PPORerouter._create_rerouted_path`
(services/optimization/ppo_rerouter.py lines 135-273): locate the
current-position and blocked indices by id (falling back to nearest by
coordinates for the current position), keep the prefix up to and
including the current position with renumbered orders, append a
suffix — from the alternative route when still ahead of the blocked
waypoint (trimmed to the remaining length budget), otherwise the rest
of the current route — with fresh ids (`freshIds`) and rewritten
names, extend the reroute history, and recompute distance and fitness
on the new route (fresh `weather_data` is empty, so the fitness lands
in the distance fallback). -/
def createReroutedPath (geodist : ℝ × ℝ → ℝ × ℝ → ℝ) (freshIds : ℕ → ℕ)
    (newRouteId : ℕ) (current_route : Route)
    (blocked_waypoint current_position : Waypoint)
    (alternative_route : Route) (target_index : ℕ) : Route :=
  let current_pos_index0 := lastIdxById current_route.waypoints current_position.id
  let blocked_index := lastIdxById current_route.waypoints blocked_waypoint.id
  let current_pos_index :=
    if current_pos_index0 = -1 then
      nearestIdxByDist geodist current_route.waypoints current_position
    else current_pos_index0
  let waypoints_initial := current_route.waypoints.take (current_pos_index + 1).toNat
  let waypoints_alt :=
    if blocked_index ≠ -1 ∧ current_pos_index < blocked_index then
      let total_waypoints_needed := current_route.waypoints.length
      let remaining_waypoints_needed := total_waypoints_needed - waypoints_initial.length
      let alt_start_index := target_index
      let waypoints_alt0 := alternative_route.waypoints.drop alt_start_index
      if remaining_waypoints_needed < waypoints_alt0.length then
        waypoints_alt0.take remaining_waypoints_needed
      else waypoints_alt0
    else
      current_route.waypoints.drop (current_pos_index + 1).toNat
  let combined_initial := waypoints_initial.enum.map (fun p =>
    { p.2 with order := p.1 + 1 })
  let next_order := combined_initial.length + 1
  let combined_alt := waypoints_alt.enum.map (fun p =>
    { p.2 with
      id := freshIds p.1,
      name := "WP" ++ toString (next_order + p.1) ++ "_" ++
        extractRouteType p.2.name,
      order := next_order + p.1 })
  let combined_waypoints := combined_initial ++ combined_alt
  let reroute_record := (blocked_waypoint.name, alternative_route.path_type)
  let rerouted0 : Route :=
    { id := newRouteId,
      name := "Rerouted_" ++ current_route.name,
      origin := current_route.origin,
      destination := current_route.destination,
      waypoints := combined_waypoints,
      path_type := "rerouted_" ++ alternative_route.path_type,
      optimization_method := "ppo",
      distance := 0, fitness_score := 0, weather_data := [],
      reroute_history := [] }
  let rerouted1 :=
    { rerouted0 with
      reroute_history :=
        if current_route.reroute_history ≠ [] then
          current_route.reroute_history ++ [reroute_record]
        else [reroute_record] }
  let rerouted2 := { rerouted1 with distance := rerouted1.calculate_total_distance }
  { rerouted2 with fitness_score := rerouted2.calculate_fitness_score }

/-- Embeds the nearest-waypoint search of `PPORerouter.reroute`
(lines 85-95) inside one alternative route: the first minimal waypoint
by haversine distance from the current position, with its index and
distance; `none` when the route has no waypoints. -/
def nearestInRoute (cp : Waypoint) (alt : Route) : Option (Waypoint × ℕ × ℝ) :=
  alt.waypoints.enum.foldl (fun acc p =>
    let d := pointDistance cp.latitude cp.longitude p.2.latitude p.2.longitude
    match acc with
    | none => some (p.2, p.1, d)
    | some (w, i, md) => if d < md then some (p.2, p.1, d) else some (w, i, md))
    none

/-- Embeds `PPORerouter.reroute` (services/optimization/ppo_rerouter.py
lines 21-133): `None` when no alternatives are supplied; recover the
used path types from the reroute history (or the current path type);
default the current position to the waypoint before the blocked one,
failing when the blocked waypoint is the first or not found; collect
the nearest entry points of the not-yet-used alternatives, pick the
closest, and splice.  Returns the rerouted route, with the waypoint
before the blocked one marked active on the current route when the
current position was defaulted. -/
def ppoReroute (geodist : ℝ × ℝ → ℝ × ℝ → ℝ) (freshIds : ℕ → ℕ)
    (newRouteId : ℕ) (blocked_waypoint : Waypoint) (current_route : Route)
    (alternative_routes : List Route)
    (current_position : Option Waypoint) : Option Route :=
  if alternative_routes = [] then none
  else
    let used_route_types :=
      if current_route.reroute_history = [] then [current_route.path_type]
      else current_route.reroute_history.map Prod.snd
    let located : Option (Waypoint × Route) :=
      match current_position with
      | some cp => some (cp, current_route)
      | none =>
          match pyIndex current_route.waypoints blocked_waypoint with
          | none => none
          | some blocked_index =>
              if 0 < blocked_index then
                let cp0 := current_route.waypoints.getD (blocked_index - 1) default
                let cp := { cp0 with status := WaypointStatus.active }
                some (cp, { current_route with
                            waypoints := current_route.waypoints.set
                              (blocked_index - 1) cp })
              else none
    match located with
    | none => none
    | some (cp, route2) =>
        let reroute_targets := alternative_routes.filterMap (fun alt =>
          if alt.path_type ∈ used_route_types then none
          else (nearestInRoute cp alt).map (fun t => (alt, t)))
        if reroute_targets = [] then none
        else
          let sorted := pySortByKey (fun t => t.2.2.2) reroute_targets
          match sorted.head? with
          | none => none
          | some best =>
              some (createReroutedPath geodist freshIds newRouteId route2
                blocked_waypoint cp best.1 best.2.2.1)

/-! ## backend/realtime/route_adjuster.py -/

/-- Embeds the temporary origin airport the adjuster synthesizes at
the current position (lines 92-100); the `TMP{uuid4}` fragment of the
iata code is abstracted to a constant tag. -/
def tempOriginAirport (cp : Waypoint) : Airport :=
  { iata_code := "TMP", name := "Current Position", city := "",
    country := "", latitude := cp.latitude, longitude := cp.longitude }

/-- Embeds the first `for waypoint in route.waypoints` scan of
`handle_blocked_waypoint`: the first index whose waypoint id matches
the requested id. -/
def pyFindIdxById (l : List Waypoint) (wid : ℕ) : Option ℕ :=
  match l with
  | [] => none
  | w :: rest =>
      if w.id = wid then some 0 else (pyFindIdxById rest wid).map (· + 1)

/-- Embeds `RouteAdjuster.handle_blocked_waypoint`
(backend/realtime/route_adjuster.py lines 48-130) over a registry
mapping route-id keys to routes.  The injected collaborators are
oracles: `gen origin destination excluded` stands for
`route_generator.generate_alternative_routes` and `opt` for the
optimizer obtained from the factory.  In-place waypoint mutation
becomes an update of the registered route.  Returns the new registry
and the optional replacement route: `none` when the route or waypoint
is unknown or no optimized alternative is produced — in which case the
registry keeps the same route (with the blocked waypoint marked
blocked and, unless it is first, its predecessor marked active). -/
def handleBlockedWaypoint
    (gen : Option Airport → Option Airport → ExcludedArea → List Route)
    (opt : List Route → Option Route)
    (registry : ℕ → Option Route) (route_id : ℕ) (waypoint_id : ℕ) :
    (ℕ → Option Route) × Option Route :=
  match registry route_id with
  | none => (registry, none)
  | some route =>
      match pyFindIdxById route.waypoints waypoint_id with
      | none => (registry, none)
      | some bi =>
          let blocked0 := route.waypoints.getD bi default
          let blocked := { blocked0 with status := WaypointStatus.blocked }
          let wps1 := route.waypoints.set bi blocked
          let current_position : Option Waypoint :=
            if 0 < bi then
              some { wps1.getD (bi - 1) default with
                     status := WaypointStatus.active }
            else none
          let wps2 :=
            match current_position with
            | some cp => wps1.set (bi - 1) cp
            | none => wps1
          let route2 := { route with waypoints := wps2 }
          let registry2 : ℕ → Option Route :=
            fun k => if k = route_id then some route2 else registry k
          let excluded_area : ExcludedArea :=
            { center_latitude := blocked.latitude,
              center_longitude := blocked.longitude, radius_km := 0.2 }
          let new_routes :=
            match current_position with
            | some cp => gen (some (tempOriginAirport cp)) route2.destination
                excluded_area
            | none => gen route2.origin route2.destination excluded_area
          match opt new_routes with
          | none => (registry2, none)
          | some optimized =>
              let optimized2 := { optimized with id := route_id }
              (fun k => if k = route_id then some optimized2 else registry2 k,
               some optimized2)

/-- The waypoint-status effect of `handle_blocked_waypoint` lines
60-80, as one function: the waypoint at the blocked index gets status
`blocked` and, unless that index is 0, its predecessor gets status
`active`.  Used to state the frame property of a failed reroute. -/
def blockAndActivate (wps : List Waypoint) (bi : ℕ) : List Waypoint :=
  let blocked := { wps.getD bi default with status := WaypointStatus.blocked }
  let wps1 := wps.set bi blocked
  if 0 < bi then
    wps1.set (bi - 1) { wps1.getD (bi - 1) default with
                        status := WaypointStatus.active }
  else wps1

/-! ## Concrete fixtures used by witnesses and counterexamples -/

/-- Fixture: an airport at latitude 0, longitude 0. -/
def apZero : Airport :=
  { iata_code := "AAA", name := "A", city := "", country := "",
    latitude := 0, longitude := 0 }

/-- Fixture: an airport at latitude 60, longitude 60. -/
def apSixty : Airport :=
  { iata_code := "BBB", name := "B", city := "", country := "",
    latitude := 60, longitude := 60 }

/-- Fixture: a candidate route with stored distance 2550 km and a
previously computed fitness score of 7. -/
def routeDist2550 : Route :=
  { id := 2, name := "cand", origin := none, destination := none,
    waypoints := [], path_type := "left", optimization_method := "",
    distance := 2550, fitness_score := 7, weather_data := [],
    reroute_history := [] }

/-- Fixture: a route from `apZero` to `apSixty` with no waypoints and a
single weather sample. -/
def routeZeroSixty : Route :=
  { id := 1, name := "AAA-BBB (direct)", origin := some apZero,
    destination := some apSixty, waypoints := [], path_type := "direct",
    optimization_method := "", distance := 1234, fitness_score := 0,
    weather_data := [{}], reroute_history := [] }

/-- Fixture: a pending waypoint with id 10 at (1, 1). -/
def wpA : Waypoint :=
  { id := 10, name := "WP1_direct", latitude := 1, longitude := 1,
    order := 1, status := WaypointStatus.pending }

/-- Fixture: a pending waypoint with id 11 at (2, 2). -/
def wpB : Waypoint :=
  { id := 11, name := "WP2_direct", latitude := 2, longitude := 2,
    order := 2, status := WaypointStatus.pending }

/-- Fixture: a pending waypoint with id 12 at (3, 3). -/
def wpC : Waypoint :=
  { id := 12, name := "WP3_direct", latitude := 3, longitude := 3,
    order := 3, status := WaypointStatus.pending }

/-- Fixture: a registered active route over the three waypoints. -/
def regRoute : Route :=
  { id := 1, name := "R1", origin := some apZero,
    destination := some apSixty, waypoints := [wpA, wpB, wpC],
    path_type := "direct", optimization_method := "aco", distance := 100,
    fitness_score := 1, weather_data := [], reroute_history := [] }

/-- Fixture: a registry holding `regRoute` under key 1. -/
def regFixture : ℕ → Option Route :=
  fun k => if k = 1 then some regRoute else none

/-- Fixture: an alternative candidate route with no waypoints. -/
def altFixture : Route :=
  { id := 5, name := "Alt", origin := some apZero,
    destination := some apSixty, waypoints := [], path_type := "left",
    optimization_method := "", distance := 0, fitness_score := 0,
    weather_data := [], reroute_history := [] }

/-- Fixture: a pending waypoint with id 21 used in an alternative. -/
def wpD : Waypoint :=
  { id := 21, name := "WP5_left", latitude := 5, longitude := 5,
    order := 5, status := WaypointStatus.pending }

/-- Fixture: an alternative candidate route holding one waypoint. -/
def altRouteWps : Route :=
  { id := 6, name := "AltW", origin := some apZero,
    destination := some apSixty, waypoints := [wpD], path_type := "left",
    optimization_method := "", distance := 0, fitness_score := 0,
    weather_data := [], reroute_history := [] }

end

/-! ## General lemmas about the embedded helpers -/

/-- Python float `%` leaves a value in `[0, b)` unchanged. -/
theorem pyMod_eq_self {x b : ℝ} (hb : 0 < b) (h0 : 0 ≤ x) (hx : x < b) :
    pyMod x b = x := by
  have hfl : ⌊x / b⌋ = 0 :=
    Int.floor_eq_zero_iff.mpr ⟨div_nonneg h0 hb.le, (div_lt_one hb).mpr hx⟩
  simp [pyMod, hfl]

/-- Python float `%` is invariant under adding the modulus. -/
theorem pyMod_add_right {x b : ℝ} (hb : b ≠ 0) : pyMod (x + b) b = pyMod x b := by
  have h1 : (x + b) / b = x / b + 1 := by field_simp
  simp only [pyMod, h1, Int.floor_add_one]
  push_cast
  ring

/-- Python float `%` rewritten through the fractional part. -/
theorem pyMod_eq_mul_fract {x b : ℝ} (hb : b ≠ 0) :
    pyMod x b = b * Int.fract (x / b) := by
  unfold pyMod Int.fract
  rw [mul_sub, mul_comm b (x / b), div_mul_cancel₀ x hb]

/-- Python float `%` by a positive modulus is nonnegative. -/
theorem pyMod_nonneg {x b : ℝ} (hb : 0 < b) : 0 ≤ pyMod x b := by
  rw [pyMod_eq_mul_fract hb.ne']
  exact mul_nonneg hb.le (Int.fract_nonneg _)

/-- Python float `%` by a positive modulus is below the modulus. -/
theorem pyMod_lt {x b : ℝ} (hb : 0 < b) : pyMod x b < b := by
  rw [pyMod_eq_mul_fract hb.ne']
  calc b * Int.fract (x / b) < b * 1 :=
        (mul_lt_mul_left hb).mpr (Int.fract_lt_one _)
    _ = b := mul_one b

/-- Converting to degrees preserves strict order. -/
theorem degreesOf_lt_degreesOf {x y : ℝ} (h : x < y) : degreesOf x < degreesOf y := by
  unfold degreesOf
  have hpi := Real.pi_pos
  have h180 : (0 : ℝ) < 180 / Real.pi := by positivity
  calc x * 180 / Real.pi = x * (180 / Real.pi) := by ring
    _ < y * (180 / Real.pi) := mul_lt_mul_of_pos_right h h180
    _ = y * 180 / Real.pi := by ring

/-! ## C10 — distance-only fallback for fewer than two weather samples -/

/-- C10: `Route.calculate_fitness_score` applies the distance-only
fallback `distance / 1000` whenever the weather-sample map holds fewer
than two samples — both for an empty map and for a map with exactly one
sample; the weather-aware scoring path is reached only with at least
two samples present. -/
theorem fitness_fallback_under_two_samples (r : Route)
    (h : r.weather_data.length < 2) :
    r.calculate_fitness_score = r.effectiveDistance / 1000 := by
  unfold Route.calculate_fitness_score
  by_cases h0 : r.weather_data = []
  · simp [h0]
  · simp [h0, h]

/-- Witness for C10 at a route holding exactly one weather sample. -/
theorem fitness_fallback_under_two_samples_witness :
    routeZeroSixty.weather_data.length < 2 ∧
    routeZeroSixty.calculate_fitness_score =
      routeZeroSixty.effectiveDistance / 1000 :=
  ⟨by simp [routeZeroSixty],
   fitness_fallback_under_two_samples routeZeroSixty (by simp [routeZeroSixty])⟩

/-! ## C7 — the flight heading used by fitness scoring

The claim states the heading equals the great-circle initial bearing
of `geo_utils.calculate_bearing`.  The code instead computes
`degrees(atan2(delta_lon, delta_lat)) % 360` on raw coordinate
deltas — a flat-earth approximation.  The two disagree, witnessed at
origin (0, 0), destination (60, 60): the code's heading is 45 while the
great-circle bearing is `arctan (1/2)` in degrees, strictly below 45. -/

/-- Counterexample to C7: for the route from (0, 0) to (60, 60) the
heading used by `calculate_fitness_score` differs from the great-circle
bearing `calculate_bearing` of geo_utils. -/
theorem heading_ne_great_circle_bearing :
    routeZeroSixty.flightHeading ≠
      calculate_bearing (0, 0) (60, 60) := by
  have hpi := Real.pi_pos
  have hL : routeZeroSixty.flightHeading = 45 := by
    show pyMod (degreesOf (atan2 (60 - 0) (60 - 0))) 360 = 45
    have h1 : atan2 (60 - 0 : ℝ) (60 - 0) = Real.pi / 4 := by
      unfold atan2
      rw [if_pos (by norm_num : (0 : ℝ) < 60 - 0)]
      norm_num [Real.arctan_one]
    have h2 : degreesOf (Real.pi / 4) = 45 := by
      unfold degreesOf
      field_simp
      ring
    rw [h1, h2]
    exact pyMod_eq_self (by norm_num) (by norm_num) (by norm_num)
  have hR : calculate_bearing (0, 0) (60, 60) < 45 := by
    have hrad0 : radiansOf 0 = 0 := by unfold radiansOf; ring
    have hrad60 : radiansOf 60 = Real.pi / 3 := by unfold radiansOf; ring
    simp only [calculate_bearing]
    rw [hrad0, hrad60]
    have hy : Real.sin (Real.pi / 3 - 0) * Real.cos (Real.pi / 3) =
        Real.sqrt 3 / 4 := by
      rw [sub_zero, Real.sin_pi_div_three, Real.cos_pi_div_three]
      ring
    have hx : Real.cos 0 * Real.sin (Real.pi / 3) -
        Real.sin 0 * Real.cos (Real.pi / 3) * Real.cos (Real.pi / 3 - 0) =
        Real.sqrt 3 / 2 := by
      rw [Real.cos_zero, Real.sin_zero, Real.sin_pi_div_three]
      ring
    rw [hy, hx]
    have hs3 : (0 : ℝ) < Real.sqrt 3 := Real.sqrt_pos.mpr (by norm_num)
    have hat : atan2 (Real.sqrt 3 / 4) (Real.sqrt 3 / 2) =
        Real.arctan (1 / 2) := by
      unfold atan2
      rw [if_pos (by positivity : (0 : ℝ) < Real.sqrt 3 / 2)]
      congr 1
      field_simp
      ring
    rw [hat]
    have harcpos : 0 < Real.arctan (1 / 2) := by
      have := Real.arctan_strictMono (show (0 : ℝ) < 1 / 2 by norm_num)
      rwa [Real.arctan_zero] at this
    have harclt : Real.arctan (1 / 2) < Real.pi / 4 := by
      have := Real.arctan_strictMono (show (1 / 2 : ℝ) < 1 by norm_num)
      rwa [Real.arctan_one] at this
    have hdeg_lt : degreesOf (Real.arctan (1 / 2)) < 45 := by
      have h45 : degreesOf (Real.pi / 4) = 45 := by
        unfold degreesOf; field_simp; ring
      calc degreesOf (Real.arctan (1 / 2)) < degreesOf (Real.pi / 4) :=
            degreesOf_lt_degreesOf harclt
        _ = 45 := h45
    have hdeg_pos : 0 ≤ degreesOf (Real.arctan (1 / 2)) := by
      unfold degreesOf
      positivity
    rw [pyMod_add_right (by norm_num : (360 : ℝ) ≠ 0),
      pyMod_eq_self (by norm_num) hdeg_pos (by linarith)]
    exact hdeg_lt
  rw [hL]
  intro hEq
  rw [← hEq] at hR
  exact lt_irrefl _ hR

/-- C7 as amended: the flight heading used by
`calculate_fitness_score` for ground-speed and crosswind computations
is the flat-coordinate value `degrees(atan2(delta_lon, delta_lat)) % 360`
(not the great-circle bearing), lies in `[0, 360)`, and falls back to 0
when origin or destination is missing. -/
theorem flight_heading_flat_formula (r : Route) :
    (∀ o d, r.origin = some o → r.destination = some d →
      r.flightHeading =
        pyMod (degreesOf (atan2 (d.longitude - o.longitude)
          (d.latitude - o.latitude))) 360 ∧
      0 ≤ r.flightHeading ∧ r.flightHeading < 360) ∧
    ((r.origin = none ∨ r.destination = none) → r.flightHeading = 0) := by
  constructor
  · intro o d ho hd
    have hval : r.flightHeading =
        pyMod (degreesOf (atan2 (d.longitude - o.longitude)
          (d.latitude - o.latitude))) 360 := by
      unfold Route.flightHeading
      rw [ho, hd]
    refine ⟨hval, ?_, ?_⟩
    · rw [hval]; exact pyMod_nonneg (by norm_num)
    · rw [hval]; exact pyMod_lt (by norm_num)
  · intro h
    unfold Route.flightHeading
    rcases h with h | h
    · rcases hy : r.destination <;> simp_all
    · rcases hx : r.origin <;> simp_all

/-- Witness for the amended C7 at the route from (0, 0) to (60, 60). -/
theorem flight_heading_flat_formula_witness :
    routeZeroSixty.origin = some apZero ∧
    routeZeroSixty.destination = some apSixty ∧
    (routeZeroSixty.flightHeading =
      pyMod (degreesOf (atan2 (apSixty.longitude - apZero.longitude)
        (apSixty.latitude - apZero.latitude))) 360 ∧
     0 ≤ routeZeroSixty.flightHeading ∧ routeZeroSixty.flightHeading < 360) :=
  ⟨rfl, rfl, (flight_heading_flat_formula routeZeroSixty).1 apZero apSixty rfl rfl⟩

/-! ## Lemmas about the candidate generator -/

/-- Every waypoint list built by `_calculate_waypoints` has exactly 20
entries with the first pinned to the origin's exact coordinates and the
last to the destination's. -/
theorem calculateWaypoints_pinned (ids : ℕ → ℕ) (o d : Airport)
    (t : String) (ex : List ExcludedArea) :
    (calculateWaypoints ids o d t ex).length = 20 ∧
    (∃ wf, (calculateWaypoints ids o d t ex).head? = some wf ∧
      wf.latitude = o.latitude ∧ wf.longitude = o.longitude) ∧
    (∃ wl, (calculateWaypoints ids o d t ex).getLast? = some wl ∧
      wl.latitude = d.latitude ∧ wl.longitude = d.longitude) := by
  simp only [calculateWaypoints]
  split
  · refine ⟨by simp, ⟨_, rfl, rfl, rfl⟩, ?_⟩
    rw [List.getLast?_concat]
    exact ⟨_, rfl, rfl, rfl⟩
  · refine ⟨by simp, ⟨_, rfl, rfl, rfl⟩, ?_⟩
    rw [List.getLast?_concat]
    exact ⟨_, rfl, rfl, rfl⟩

/-- Field projections of `_generate_route`: the produced route carries
the requested path type and the waypoints of `_calculate_waypoints`. -/
theorem generateRoute_fields (routeId : ℕ) (ids : ℕ → ℕ)
    (weather : Route → List WeatherNode) (o d : Airport) (t : String)
    (aircraft : Option Aircraft) (ex : List ExcludedArea) :
    (generateRoute routeId ids weather o d t aircraft ex).path_type = t ∧
    (generateRoute routeId ids weather o d t aircraft ex).waypoints =
      calculateWaypoints ids o d t ex := by
  unfold generateRoute
  exact ⟨rfl, rfl⟩

/-! ## C3 — one route per requested path type, 20 waypoints, exact endpoint pinning -/

/-- C3: for non-null origin and destination and a nonempty requested
path-type list, `generate_alternative_routes` returns one route per
requested path type (positionally), each with exactly 20 waypoints
whose first waypoint carries the origin's exact coordinates and whose
last carries the destination's exact coordinates. -/
theorem generator_one_route_per_type (routeIds : ℕ → ℕ) (ids : ℕ → ℕ → ℕ)
    (weather : Route → List WeatherNode) (o d : Airport) (ts : List String)
    (aircraft : Option Aircraft) (ex : List ExcludedArea) (hts : ts ≠ []) :
    (generate_alternative_routes routeIds ids weather (some o) (some d)
      ts aircraft ex).length = ts.length ∧
    ∀ k (hk1 : k < (generate_alternative_routes routeIds ids weather (some o)
        (some d) ts aircraft ex).length) (hk2 : k < ts.length),
      ((generate_alternative_routes routeIds ids weather (some o) (some d)
          ts aircraft ex).get ⟨k, hk1⟩).path_type = ts.get ⟨k, hk2⟩ ∧
      ((generate_alternative_routes routeIds ids weather (some o) (some d)
          ts aircraft ex).get ⟨k, hk1⟩).waypoints.length = 20 ∧
      (∃ wf, ((generate_alternative_routes routeIds ids weather (some o) (some d)
          ts aircraft ex).get ⟨k, hk1⟩).waypoints.head? = some wf ∧
        wf.latitude = o.latitude ∧ wf.longitude = o.longitude) ∧
      (∃ wl, ((generate_alternative_routes routeIds ids weather (some o) (some d)
          ts aircraft ex).get ⟨k, hk1⟩).waypoints.getLast? = some wl ∧
        wl.latitude = d.latitude ∧ wl.longitude = d.longitude) := by
  have hres : generate_alternative_routes routeIds ids weather (some o) (some d)
      ts aircraft ex = ts.enum.map (fun p =>
        generateRoute (routeIds p.1) (ids p.1) weather o d p.2 aircraft ex) := by
    unfold generate_alternative_routes
    rw [if_neg hts]
  constructor
  · rw [hres]; simp
  · intro k hk1 hk2
    have hget : (generate_alternative_routes routeIds ids weather (some o) (some d)
        ts aircraft ex).get ⟨k, hk1⟩ =
        generateRoute (routeIds k) (ids k) weather o d (ts.get ⟨k, hk2⟩) aircraft ex := by
      rw [List.get_eq_getElem, List.getElem_of_eq hres hk1]
      rw [List.getElem_map, List.getElem_enum]
      simp
    rw [hget]
    obtain ⟨hpt, hwps⟩ := generateRoute_fields (routeIds k) (ids k) weather o d
      (ts.get ⟨k, hk2⟩) aircraft ex
    obtain ⟨hlen, hfst, hlst⟩ := calculateWaypoints_pinned (ids k) o d
      (ts.get ⟨k, hk2⟩) ex
    exact ⟨hpt, by rw [hwps]; exact hlen, by rw [hwps]; exact hfst,
      by rw [hwps]; exact hlst⟩

/-- Witness for C3 with the single requested type `direct` between the
fixture airports. -/
theorem generator_one_route_per_type_witness :
    (["direct"] : List String) ≠ [] ∧
    ((generate_alternative_routes (fun _ => 0) (fun _ _ => 0) (fun _ => [])
        (some apZero) (some apSixty) ["direct"] none []).length =
      (["direct"] : List String).length ∧
    ∀ k (hk1 : k < (generate_alternative_routes (fun _ => 0) (fun _ _ => 0)
        (fun _ => []) (some apZero) (some apSixty) ["direct"] none []).length)
      (hk2 : k < (["direct"] : List String).length),
      ((generate_alternative_routes (fun _ => 0) (fun _ _ => 0) (fun _ => [])
          (some apZero) (some apSixty) ["direct"] none []).get ⟨k, hk1⟩).path_type =
        (["direct"] : List String).get ⟨k, hk2⟩ ∧
      ((generate_alternative_routes (fun _ => 0) (fun _ _ => 0) (fun _ => [])
          (some apZero) (some apSixty) ["direct"] none []).get
            ⟨k, hk1⟩).waypoints.length = 20 ∧
      (∃ wf, ((generate_alternative_routes (fun _ => 0) (fun _ _ => 0) (fun _ => [])
          (some apZero) (some apSixty) ["direct"] none []).get
            ⟨k, hk1⟩).waypoints.head? = some wf ∧
        wf.latitude = apZero.latitude ∧ wf.longitude = apZero.longitude) ∧
      (∃ wl, ((generate_alternative_routes (fun _ => 0) (fun _ _ => 0) (fun _ => [])
          (some apZero) (some apSixty) ["direct"] none []).get
            ⟨k, hk1⟩).waypoints.getLast? = some wl ∧
        wl.latitude = apSixty.latitude ∧ wl.longitude = apSixty.longitude)) :=
  ⟨by decide,
   generator_one_route_per_type (fun _ => 0) (fun _ _ => 0) (fun _ => [])
     apZero apSixty ["direct"] none [] (by decide)⟩

/-! ## C8 — behaviour on null endpoints and an empty path-type list -/

/-- Counterexample to C8: with a null origin the generator returns the
empty list as an ordinary value rather than failing with an
`InvalidInput` error, and with a non-null origin/destination but an
empty requested path-type list it does not return an empty list — it
defaults to the six standard types and returns six routes. -/
theorem generator_null_and_empty_types_counterexample :
    generate_alternative_routes (fun _ => 0) (fun _ _ => 0) (fun _ => [])
      none (some apSixty) ["direct"] none [] = [] ∧
    (generate_alternative_routes (fun _ => 0) (fun _ _ => 0) (fun _ => [])
      (some apZero) (some apSixty) [] none []).length = 6 := by
  constructor
  · rfl
  · unfold generate_alternative_routes
    simp

/-- C8 as amended: `generate_alternative_routes` returns an empty list
(without raising) when origin or destination is null, and when the
requested path-type list is empty it defaults to the six standard
types, returning six routes. -/
theorem generator_null_empty_and_default_types (routeIds : ℕ → ℕ)
    (ids : ℕ → ℕ → ℕ) (weather : Route → List WeatherNode)
    (aircraft : Option Aircraft) (ex : List ExcludedArea) :
    (∀ d ts, generate_alternative_routes routeIds ids weather none d ts
      aircraft ex = []) ∧
    (∀ o ts, generate_alternative_routes routeIds ids weather o none ts
      aircraft ex = []) ∧
    (∀ o d, (generate_alternative_routes routeIds ids weather (some o) (some d)
      [] aircraft ex).length = 6) := by
  refine ⟨fun d ts => ?_, fun o ts => ?_, fun o d => ?_⟩
  · cases d <;> rfl
  · cases o <;> rfl
  · unfold generate_alternative_routes
    simp

/-! ## Lemmas about the ant-colony best tracking (aco.py) -/

/-- One `AntColonyOptimizer` iteration never worsens the tracked best
fitness. -/
theorem acoIter_best_le (ws : Route → ℝ) (w alpha beta evap : ℝ)
    (routes : List Route) (sel : ℕ → List ℝ → ℕ) (k : ℕ) (s : AcoState) :
    acoBestFitness (acoIter ws w alpha beta evap routes sel k s) ≤
      acoBestFitness s := by
  unfold acoIter acoBestFitness
  rcases hb : s.best with _ | ⟨br, bf⟩
  · simp
  · simp only
    by_cases hlt : evalFitnessBlend ws w (pyChoice routes
        (sel k (acoCalculateProbabilities ws w alpha beta routes s.pheromones))) < bf
    · simp only [if_pos hlt]
      exact_mod_cast hlt.le
    · simp [if_neg hlt]

/-- After an iteration the tracked best fitness is at most the fitness
just sampled. -/
theorem acoIter_best_le_sampled (ws : Route → ℝ) (w alpha beta evap : ℝ)
    (routes : List Route) (sel : ℕ → List ℝ → ℕ) (k : ℕ) (s : AcoState) :
    acoBestFitness (acoIter ws w alpha beta evap routes sel k s) ≤
      ((evalFitnessBlend ws w (pyChoice routes
        (sel k (acoCalculateProbabilities ws w alpha beta routes s.pheromones)))) :
        WithTop ℝ) := by
  unfold acoIter acoBestFitness
  rcases hb : s.best with _ | ⟨br, bf⟩
  · simp
  · simp only
    by_cases hlt : evalFitnessBlend ws w (pyChoice routes
        (sel k (acoCalculateProbabilities ws w alpha beta routes s.pheromones))) < bf
    · simp [if_pos hlt]
    · simp only [if_neg hlt]
      exact_mod_cast not_lt.mp hlt

/-- The tracked best fitness is antitone in the iteration count. -/
theorem acoBestFitness_antitone (ws : Route → ℝ) (w alpha beta evap : ℝ)
    (routes : List Route) (sel : ℕ → List ℝ → ℕ) {j k : ℕ} (h : j ≤ k) :
    acoBestFitness (acoStateAfter ws w alpha beta evap routes sel k) ≤
      acoBestFitness (acoStateAfter ws w alpha beta evap routes sel j) := by
  induction k with
  | zero => cases Nat.le_zero.mp h; exact le_refl _
  | succ n ih =>
      rcases Nat.lt_or_ge j (n + 1) with hj | hj
      · calc acoBestFitness (acoStateAfter ws w alpha beta evap routes sel (n + 1)) ≤
              acoBestFitness (acoStateAfter ws w alpha beta evap routes sel n) :=
            acoIter_best_le ws w alpha beta evap routes sel n _
          _ ≤ _ := ih (Nat.lt_succ_iff.mp hj)
      · have : j = n + 1 := le_antisymm h hj
        subst this
        exact le_refl _

/-! ## C6 — ant-colony best fitness is monotonically non-increasing -/

/-- C6: across an `AntColonyOptimizer.optimize` run the tracked best
fitness never increases from one iteration to the next, the fitness
recorded with the final best is at most every fitness sampled during
the run, and the returned route's `fitness_score` is exactly that
final tracked best fitness. -/
theorem aco_best_monotone_and_minimal (ws : Route → ℝ)
    (w alpha beta evap : ℝ) (iterations : ℕ) (sel : ℕ → List ℝ → ℕ)
    (routes : List Route) :
    (∀ k, acoBestFitness (acoStateAfter ws w alpha beta evap routes sel (k + 1)) ≤
      acoBestFitness (acoStateAfter ws w alpha beta evap routes sel k)) ∧
    (∀ k, k < iterations →
      acoBestFitness (acoStateAfter ws w alpha beta evap routes sel iterations) ≤
        ((acoSampledFitness ws w alpha beta evap routes sel k) : WithTop ℝ)) ∧
    (antColonyOptimize ws w alpha beta evap iterations sel routes).elim True
      (fun r => (r.fitness_score : WithTop ℝ) =
        acoBestFitness (acoStateAfter ws w alpha beta evap routes sel iterations)) := by
  refine ⟨fun k => acoIter_best_le ws w alpha beta evap routes sel k _, ?_, ?_⟩
  · intro k hk
    calc acoBestFitness (acoStateAfter ws w alpha beta evap routes sel iterations) ≤
          acoBestFitness (acoStateAfter ws w alpha beta evap routes sel (k + 1)) :=
        acoBestFitness_antitone ws w alpha beta evap routes sel hk
      _ ≤ _ := acoIter_best_le_sampled ws w alpha beta evap routes sel k _
  · unfold antColonyOptimize
    by_cases hr : routes = []
    · simp [hr]
    · rw [if_neg hr]
      rcases hb : (acoStateAfter ws w alpha beta evap routes sel iterations).best
        with _ | ⟨br, bf⟩
      · simp
      · simp [acoBestFitness, hb]

/-- Witness for C6 at a one-candidate run of a single iteration. -/
theorem aco_best_monotone_and_minimal_witness :
    0 < 1 ∧
    acoBestFitness (acoStateAfter (fun _ => 0) 0.7 1 2 0.5 [routeDist2550]
        (fun _ _ => 0) 1) ≤
      ((acoSampledFitness (fun _ => 0) 0.7 1 2 0.5 [routeDist2550]
        (fun _ _ => 0) 0) : WithTop ℝ) :=
  ⟨Nat.zero_lt_one,
   (aco_best_monotone_and_minimal (fun _ => 0) 0.7 1 2 0.5 1 (fun _ _ => 0)
     [routeDist2550]).2.1 0 Nat.zero_lt_one⟩

/-! ## Membership lemmas for the random-draw and sorting helpers -/

/-- A modelled random draw from a nonempty list is one of its elements. -/
theorem pyChoice_mem {α : Type} [Inhabited α] {l : List α} (h : l ≠ []) (i : ℕ) :
    pyChoice l i ∈ l := by
  unfold pyChoice
  have hlen : 0 < l.length := List.length_pos.mpr h
  have hmod : i % l.length < l.length := Nat.mod_lt _ hlen
  rw [List.getD_eq_getElem l default hmod]
  exact List.getElem_mem hmod

/-- Python's `min` over a head-and-tail collection returns one of its
elements. -/
theorem pyMinByKey_mem {α : Type} (key : α → ℝ) (a : α) (l : List α) :
    pyMinByKey key a l ∈ a :: l := by
  unfold pyMinByKey
  induction l generalizing a with
  | nil => simp
  | cons b t ih =>
      simp only [List.foldl_cons]
      have hstep := ih (if key b < key a then b else a)
      rcases List.mem_cons.mp hstep with h | h
      · rw [h]
        split
        · exact List.mem_cons_of_mem _ (List.mem_cons_self _ _)
        · exact List.mem_cons_self _ _
      · exact List.mem_cons_of_mem _ (List.mem_cons_of_mem _ h)

/-- Membership in a stable insertion is membership in the parts. -/
theorem mem_insertByKey {α : Type} (key : α → ℝ) (a x : α) (l : List α) :
    x ∈ insertByKey key a l ↔ x = a ∨ x ∈ l := by
  induction l with
  | nil => simp [insertByKey]
  | cons b t ih =>
      unfold insertByKey
      by_cases h : key b ≤ key a
      · rw [if_pos h]
        simp only [List.mem_cons, ih]
        tauto
      · rw [if_neg h]
        simp only [List.mem_cons]

/-- The modelled Python sort preserves membership. -/
theorem mem_pySortByKey {α : Type} (key : α → ℝ) (x : α) (l : List α) :
    x ∈ pySortByKey key l ↔ x ∈ l := by
  induction l with
  | nil => simp [pySortByKey]
  | cons b t ih => simp [pySortByKey, mem_insertByKey, ih]

/-- Invariant preservation through `List.foldl`. -/
theorem foldl_invariant {α β : Type} (P : β → Prop) (f : β → α → β)
    (l : List α) (b : β) (hb : P b) (hstep : ∀ x a, P x → P (f x a)) :
    P (l.foldl f b) := by
  induction l generalizing b with
  | nil => exact hb
  | cons a t ih => exact ih _ (hstep _ _ hb)

/-! ## Best-pair shape of the aco.py run -/

/-- Throughout an `AntColonyOptimizer` run the tracked best pair is one
of the candidates together with its own blended evaluation. -/
theorem acoStateAfter_best_shape (ws : Route → ℝ) (w alpha beta evap : ℝ)
    (routes : List Route) (sel : ℕ → List ℝ → ℕ) (hne : routes ≠ [])
    (k : ℕ) :
    ∀ br bf, (acoStateAfter ws w alpha beta evap routes sel k).best = some (br, bf) →
      br ∈ routes ∧ bf = evalFitnessBlend ws w br := by
  induction k with
  | zero =>
      intro br bf h
      simp [acoStateAfter] at h
  | succ n ih =>
      intro br bf h
      unfold acoStateAfter acoIter at h
      simp only at h
      split at h
      · simp only [Option.some.injEq, Prod.mk.injEq] at h
        exact ⟨h.1 ▸ pyChoice_mem hne _, h.2 ▸ h.1 ▸ rfl⟩
      · rename_i br0 bf0 heq
        split at h
        · simp only [Option.some.injEq, Prod.mk.injEq] at h
          exact ⟨h.1 ▸ pyChoice_mem hne _, h.2 ▸ h.1 ▸ rfl⟩
        · simp only [Option.some.injEq, Prod.mk.injEq] at h
          obtain ⟨h1, h2⟩ := h
          obtain ⟨hm, he⟩ := ih br0 bf0 heq
          exact ⟨h1 ▸ hm, h2 ▸ h1 ▸ he⟩

/-! ## C4 — what the optimizers write onto the returned route -/

/-- Counterexample to C4: on the one-candidate list whose stored
fitness score is 7, the aco.py `AntColonyOptimizer` returns the route
with `fitness_score` overwritten to 0.15 — its own blend of weather
score (0 here) and normalized distance — not the previously computed
evaluator value 7. -/
theorem aco_overwrites_fitness_counterexample :
    antColonyOptimize (fun _ => 0) 0.7 1 2 0.5 1 (fun _ _ => 0) [routeDist2550] =
      some { routeDist2550 with
             optimization_method := "aco",
             fitness_score := 0.15 } ∧
    routeDist2550.fitness_score = 7 ∧ (0.15 : ℝ) ≠ 7 := by
  refine ⟨?_, rfl, by norm_num⟩
  unfold antColonyOptimize acoStateAfter acoIter
  rw [if_neg (by simp : ([routeDist2550] : List Route) ≠ [])]
  simp only [pyChoice, acoStateAfter]
  norm_num [evalFitnessBlend, normalize_distance, routeDist2550,
    min_def, max_def]

/-! ## Invariants of the genetic.py run -/

/-- A tournament winner is one of the scored pairs. -/
theorem gaSelection_mem (fr : List (Route × ℝ)) (hfrne : fr ≠ [])
    (draw : ℕ × List ℕ) : gaSelection fr draw ∈ fr := by
  unfold gaSelection
  have hmem := pyMinByKey_mem Prod.snd (pyChoice fr draw.1)
    (draw.2.map (pyChoice fr))
  rcases List.mem_cons.mp hmem with h | h
  · rw [h]
    exact pyChoice_mem hfrne _
  · obtain ⟨i, _, hi⟩ := List.mem_map.mp h
    rw [← hi]
    exact pyChoice_mem hfrne _

/-- The child-filling loop adds exactly `n` children. -/
theorem gaFill_length (ws : Route → ℝ) (w mrate : ℝ) (routes : List Route)
    (orc : GaOracle) (gen : ℕ) (fr : List (Route × ℝ)) :
    ∀ n acc, (gaFill ws w mrate routes orc gen fr n acc).length = acc.length + n := by
  intro n
  induction n with
  | zero => intro acc; rfl
  | succ m ih =>
      intro acc
      show (gaFill ws w mrate routes orc gen fr m _).length = _
      rw [ih]
      simp
      omega

/-- Every route produced by the child-filling loop is an input
candidate, provided the starting accumulator and scored pairs are. -/
theorem gaFill_mem (ws : Route → ℝ) (w mrate : ℝ) (routes : List Route)
    (orc : GaOracle) (gen : ℕ) (fr : List (Route × ℝ)) (hne : routes ≠ [])
    (hfr : ∀ p ∈ fr, p.1 ∈ routes) (hfrne : fr ≠ []) :
    ∀ n acc, (∀ r ∈ acc, r ∈ routes) →
      ∀ r ∈ gaFill ws w mrate routes orc gen fr n acc, r ∈ routes := by
  intro n
  induction n with
  | zero => intro acc hacc r hr; exact hacc r hr
  | succ m ih =>
      intro acc hacc r hr
      unfold gaFill at hr
      refine ih _ ?_ r hr
      intro x hx
      rcases List.mem_append.mp hx with hx | hx
      · exact hacc x hx
      · have hxc := List.mem_singleton.mp hx
        rw [hxc]
        split
        · exact pyChoice_mem hne _
        · unfold gaCrossover
          split
          · exact hfr _ (gaSelection_mem fr hfrne _)
          · exact hfr _ (gaSelection_mem fr hfrne _)

/-- One genetic.py generation preserves: the population is drawn from
the candidates and at least `population_size` long, and the best pair
is a candidate with its own blended evaluation. -/
theorem gaGeneration_inv (ws : Route → ℝ) (w mrate : ℝ)
    (elite popsize : ℕ) (routes : List Route) (orc : GaOracle) (gen : ℕ)
    (hne : routes ≠ []) (s : GaState)
    (hpop : ∀ r ∈ s.population, r ∈ routes)
    (hlen : popsize ≤ s.population.length)
    (hbest : ∀ br bf, s.best = some (br, bf) →
      br ∈ routes ∧ bf = evalFitnessBlend ws w br) :
    (∀ r ∈ (gaGeneration ws w mrate elite popsize routes orc gen s).population,
      r ∈ routes) ∧
    popsize ≤ (gaGeneration ws w mrate elite popsize routes orc gen s).population.length ∧
    (∀ br bf, (gaGeneration ws w mrate elite popsize routes orc gen s).best =
        some (br, bf) → br ∈ routes ∧ bf = evalFitnessBlend ws w br) := by
  have hsorted_shape : ∀ p ∈ pySortByKey Prod.snd
      (s.population.map (fun route => (route, evalFitnessBlend ws w route))),
      p.1 ∈ routes ∧ p.2 = evalFitnessBlend ws w p.1 := by
    intro p hp
    have hp2 := (mem_pySortByKey _ _ _).mp hp
    obtain ⟨q, hq, hq2⟩ := List.mem_map.mp hp2
    constructor
    · rw [← hq2]
      exact hpop q hq
    · rw [← hq2]
  have helite : ∀ r ∈ (pySortByKey Prod.snd
      (s.population.map (fun route => (route, evalFitnessBlend ws w route)))).take
        elite |>.map Prod.fst, r ∈ routes := by
    intro r hr
    obtain ⟨p, hp, hp2⟩ := List.mem_map.mp hr
    rw [← hp2]
    exact (hsorted_shape p (List.take_subset _ _ hp)).1
  by_cases hpne : s.population = []
  · have hps : popsize = 0 := by
      rw [hpne] at hlen
      simpa using hlen
    unfold gaGeneration
    simp only [hpne, hps, List.map_nil]
    refine ⟨?_, by simp, ?_⟩
    · intro r hr
      simp [pySortByKey, gaFill] at hr
    · intro br bf h
      simp only [pySortByKey] at h
      exact hbest br bf h
  · have hfrne : s.population.map (fun route => (route, evalFitnessBlend ws w route)) ≠ [] := by
      simpa using hpne
    have hsne : pySortByKey Prod.snd
        (s.population.map (fun route => (route, evalFitnessBlend ws w route))) ≠ [] := by
      intro hs
      obtain ⟨x, hx⟩ := List.exists_mem_of_ne_nil _ hfrne
      have := (mem_pySortByKey Prod.snd x _).mpr hx
      rw [hs] at this
      exact List.not_mem_nil x this
    unfold gaGeneration
    simp only
    refine ⟨?_, ?_, ?_⟩
    · exact gaFill_mem ws w mrate routes orc gen _ hne
        (fun p hp => (hsorted_shape p hp).1) hsne _ _ helite
    · rw [gaFill_length]
      omega
    · intro br bf h
      rcases hhead : (pySortByKey Prod.snd
          (s.population.map (fun route => (route, evalFitnessBlend ws w route)))).head?
        with _ | ⟨r0, f0⟩
      · simp only [hhead] at h
        exact hbest br bf h
      · have hr0 : r0 ∈ routes ∧ f0 = evalFitnessBlend ws w r0 :=
          hsorted_shape (r0, f0) (List.mem_of_mem_head? hhead)
        rcases hb : s.best with _ | ⟨br0, bf0⟩
        · simp only [hhead, hb, Option.some.injEq, Prod.mk.injEq] at h
          exact ⟨h.1 ▸ hr0.1, h.2 ▸ h.1 ▸ hr0.2⟩
        · simp only [hhead, hb] at h
          split at h
          · simp only [Option.some.injEq, Prod.mk.injEq] at h
            exact ⟨h.1 ▸ hr0.1, h.2 ▸ h.1 ▸ hr0.2⟩
          · simp only [Option.some.injEq, Prod.mk.injEq] at h
            obtain ⟨hm, he⟩ := hbest br0 bf0 hb
            exact ⟨h.1 ▸ hm, h.2 ▸ h.1 ▸ he⟩

/-- Throughout a genetic.py run the population consists of input
candidates with enough members, and the tracked best pair is an input
candidate with its own blended evaluation. -/
theorem gaStateAfter_inv (ws : Route → ℝ) (w mrate : ℝ)
    (elite popsize : ℕ) (routes : List Route) (orc : GaOracle)
    (hne : routes ≠ []) (g : ℕ) :
    (∀ r ∈ (gaStateAfter ws w mrate elite popsize routes orc g).population,
      r ∈ routes) ∧
    popsize ≤ (gaStateAfter ws w mrate elite popsize routes orc g).population.length ∧
    (∀ br bf, (gaStateAfter ws w mrate elite popsize routes orc g).best =
        some (br, bf) → br ∈ routes ∧ bf = evalFitnessBlend ws w br) := by
  induction g with
  | zero =>
      refine ⟨?_, by simp [gaStateAfter], ?_⟩
      · intro r hr
        simp only [gaStateAfter] at hr
        obtain ⟨k, _, hk⟩ := List.mem_map.mp hr
        rw [← hk]
        exact pyChoice_mem hne _
      · intro br bf h
        simp [gaStateAfter] at h
  | succ n ih =>
      obtain ⟨ihpop, ihlen, ihbest⟩ := ih
      exact gaGeneration_inv ws w mrate elite popsize routes orc n hne _
        ihpop ihlen ihbest

/-! ## Invariants of the aco_optimizer.py run -/

/-- `_select_route` always returns one of the candidates (both the
zero-total fallback and the weighted draw are draws from `routes`). -/
theorem aco2SelectRoute_mem (alpha beta : ℝ) (pher : ℕ → ℝ)
    {routes : List Route} (hne : routes ≠ []) (idx : ℕ) :
    aco2SelectRoute alpha beta pher routes idx ∈ routes := by
  simp only [aco2SelectRoute, ite_self]
  exact pyChoice_mem hne idx

/-- One ant step keeps the tracked best route among the candidates. -/
theorem aco2AntStep_best (alpha beta : ℝ) (routes : List Route)
    (sel : ℕ → ℕ → ℕ) (it ant : ℕ) (hne : routes ≠ [])
    (st : Aco2State × List (ℕ × ℝ))
    (hst : ∀ br bf, st.1.best = some (br, bf) → br ∈ routes) :
    ∀ br bf, (aco2AntStep alpha beta routes sel it ant st).1.best =
      some (br, bf) → br ∈ routes := by
  intro br bf h
  unfold aco2AntStep at h
  simp only at h
  split at h
  · simp only [Option.some.injEq, Prod.mk.injEq] at h
    exact h.1 ▸ aco2SelectRoute_mem alpha beta _ hne _
  · rename_i br0 bf0 heq
    split at h
    · simp only [Option.some.injEq, Prod.mk.injEq] at h
      exact h.1 ▸ aco2SelectRoute_mem alpha beta _ hne _
    · simp only [Option.some.injEq, Prod.mk.injEq] at h
      exact h.1 ▸ hst br0 bf0 heq

/-- Throughout an `ACOOptimizer` run the tracked best route is one of
the candidates. -/
theorem aco2StateAfter_best_mem (alpha beta evap : ℝ) (ants : ℕ)
    (routes : List Route) (sel : ℕ → ℕ → ℕ) (hne : routes ≠ []) (k : ℕ) :
    ∀ br bf, (aco2StateAfter alpha beta evap ants routes sel k).best =
      some (br, bf) → br ∈ routes := by
  induction k with
  | zero =>
      intro br bf h
      simp [aco2StateAfter] at h
  | succ n ih =>
      intro br bf h
      unfold aco2StateAfter aco2Iter at h
      simp only at h
      exact foldl_invariant
        (fun st : Aco2State × List (ℕ × ℝ) =>
          ∀ br bf, st.1.best = some (br, bf) → br ∈ routes)
        (fun st ant => aco2AntStep alpha beta routes sel n ant st)
        (List.range ants)
        (aco2StateAfter alpha beta evap ants routes sel n, [])
        ih (fun st a hst => aco2AntStep_best alpha beta routes sel n a hne st hst)
        br bf h

/-- C4 as amended: every optimizer variant writes
`optimization_method` onto the returned route, but the aco.py and
genetic.py variants additionally OVERWRITE `fitness_score` with their
own blended weather/distance evaluation of the returned candidate
(not the FitnessEvaluator value), while the simpler aco_optimizer.py
variant writes only `optimization_method` and leaves `fitness_score`
as last stored by `Route.calculate_fitness_score`. -/
theorem optimizers_method_and_fitness_policy (ws : Route → ℝ)
    (w alpha beta evap mrate : ℝ) (iterations ants elite popsize gens : ℕ)
    (sel : ℕ → List ℝ → ℕ) (orc : GaOracle) (sel2 : ℕ → ℕ → ℕ)
    (routes : List Route) :
    (antColonyOptimize ws w alpha beta evap iterations sel routes).elim True
      (fun r => ∃ s ∈ routes, r = { s with
                                    optimization_method := "aco",
                                    fitness_score := evalFitnessBlend ws w s }) ∧
    (geneticAlgorithmOptimize ws w mrate elite popsize gens orc routes).elim True
      (fun r => ∃ s ∈ routes, r = { s with
                                    optimization_method := "genetic",
                                    fitness_score := evalFitnessBlend ws w s }) ∧
    (aco2Optimize alpha beta evap ants iterations sel2 routes).elim True
      (fun r => ∃ s ∈ routes, r = { s with optimization_method := "aco" }) := by
  by_cases hne : routes = []
  · subst hne
    exact ⟨by simp [antColonyOptimize], by simp [geneticAlgorithmOptimize],
      by simp [aco2Optimize]⟩
  · refine ⟨?_, ?_, ?_⟩
    · unfold antColonyOptimize
      rw [if_neg hne]
      rcases hb : (acoStateAfter ws w alpha beta evap routes sel iterations).best
        with _ | ⟨br, bf⟩
      · simp
      · obtain ⟨hm, he⟩ := acoStateAfter_best_shape ws w alpha beta evap routes
          sel hne iterations br bf hb
        simp only [Option.elim]
        exact ⟨br, hm, by rw [he]⟩
    · unfold geneticAlgorithmOptimize
      rw [if_neg hne]
      rcases hb : (gaStateAfter ws w mrate elite popsize routes orc gens).best
        with _ | ⟨br, bf⟩
      · simp
      · obtain ⟨-, -, hbest⟩ := gaStateAfter_inv ws w mrate elite popsize routes
          orc hne gens
        obtain ⟨hm, he⟩ := hbest br bf hb
        simp only [Option.elim]
        exact ⟨br, hm, by rw [he]⟩
    · unfold aco2Optimize
      rw [if_neg hne]
      rcases hb : (aco2StateAfter alpha beta evap ants routes sel2 iterations).best
        with _ | ⟨br, bf⟩
      · simp
      · have hm := aco2StateAfter_best_mem alpha beta evap ants routes sel2
          hne iterations br bf hb
        simp only [Option.elim]
        exact ⟨br, hm, rfl⟩

/-! ## Invariants of the genetic_optimizer.py run -/

/-- Both tournament parents come from the scored population. -/
theorem gen2Selection_mem (scored : List Route) (hscne : scored ≠ [])
    (i1 i2 : ℕ) :
    (gen2Selection scored i1 i2).1 ∈ scored ∧
    (gen2Selection scored i1 i2).2 ∈ scored := by
  simp only [gen2Selection]
  have hlen : 0 < scored.length := List.length_pos.mpr hscne
  have hslice : scored.take (max (min 5 scored.length) (scored.length / 2)) ≠ [] := by
    rw [← List.length_pos, List.length_take]
    omega
  exact ⟨List.take_subset _ _ (pyChoice_mem hslice _),
    List.take_subset _ _ (pyChoice_mem hslice _)⟩

/-- `_mutate` returns an input candidate whenever its argument is one. -/
theorem gen2Mutate_mem (route : Route) (routes : List Route) (i : ℕ)
    (hroute : route ∈ routes) : gen2Mutate route routes i ∈ routes := by
  simp only [gen2Mutate]
  split
  · rename_i halt
    exact List.mem_of_mem_filter (pyChoice_mem halt i)
  · exact hroute

/-- The genetic_optimizer.py child-filling loop adds exactly `n`
children. -/
theorem gen2Fill_length (mrate : ℝ) (routes : List Route) (orc : Gen2Oracle)
    (gen : ℕ) (scored : List Route) :
    ∀ n acc, (gen2Fill mrate routes orc gen scored n acc).length = acc.length + n := by
  intro n
  induction n with
  | zero => intro acc; rfl
  | succ m ih =>
      intro acc
      show (gen2Fill mrate routes orc gen scored m _).length = _
      rw [ih]
      simp
      omega

/-- Every route produced by the child-filling loop is an input
candidate. -/
theorem gen2Fill_mem (mrate : ℝ) (routes : List Route) (orc : Gen2Oracle)
    (gen : ℕ) (scored : List Route) (_hne : routes ≠ [])
    (hsc : ∀ r ∈ scored, r ∈ routes) (hscne : scored ≠ []) :
    ∀ n acc, (∀ r ∈ acc, r ∈ routes) →
      ∀ r ∈ gen2Fill mrate routes orc gen scored n acc, r ∈ routes := by
  intro n
  induction n with
  | zero => intro acc hacc r hr; exact hacc r hr
  | succ m ih =>
      intro acc hacc r hr
      unfold gen2Fill at hr
      refine ih _ ?_ r hr
      intro x hx
      rcases List.mem_append.mp hx with hx | hx
      · exact hacc x hx
      · have hxc := List.mem_singleton.mp hx
        rw [hxc]
        have hchild0 : gen2Crossover (gen2Selection scored (orc.par1 gen acc.length)
            (orc.par2 gen acc.length)).1
            (gen2Selection scored (orc.par1 gen acc.length)
            (orc.par2 gen acc.length)).2 ∈ routes := by
          unfold gen2Crossover
          obtain ⟨h1, h2⟩ := gen2Selection_mem scored hscne
            (orc.par1 gen acc.length) (orc.par2 gen acc.length)
          split
          · exact hsc _ h1
          · exact hsc _ h2
        split
        · exact gen2Mutate_mem _ routes _ hchild0
        · exact hchild0

/-- One genetic_optimizer.py generation keeps the population within
the candidates and at least `population_size` long. -/
theorem gen2Generation_inv (mrate : ℝ) (elite popsize : ℕ)
    (routes : List Route) (orc : Gen2Oracle) (gen : ℕ) (hne : routes ≠ [])
    (pop : List Route) (hpop : ∀ r ∈ pop, r ∈ routes)
    (hlen : popsize ≤ pop.length) :
    (∀ r ∈ gen2Generation mrate elite popsize routes orc gen pop, r ∈ routes) ∧
    popsize ≤ (gen2Generation mrate elite popsize routes orc gen pop).length := by
  have hsc : ∀ r ∈ pySortByKey Route.calculate_fitness_score pop, r ∈ routes :=
    fun r hr => hpop r ((mem_pySortByKey _ _ _).mp hr)
  by_cases hpne : pop = []
  · have hps : popsize = 0 := by
      rw [hpne] at hlen
      simpa using hlen
    subst hpne
    unfold gen2Generation
    simp only [hps, pySortByKey, List.take_nil, List.length_nil, Nat.zero_sub]
    exact ⟨fun r hr => absurd hr (by simp [gen2Fill]), by simp⟩
  · have hsne : pySortByKey Route.calculate_fitness_score pop ≠ [] := by
      intro hs
      obtain ⟨x, hx⟩ := List.exists_mem_of_ne_nil _ hpne
      have := (mem_pySortByKey Route.calculate_fitness_score x _).mpr hx
      rw [hs] at this
      exact List.not_mem_nil x this
    unfold gen2Generation
    constructor
    · exact gen2Fill_mem mrate routes orc gen _ hne hsc hsne _ _
        (fun r hr => hsc r (List.take_subset _ _ hr))
    · rw [gen2Fill_length]
      omega

/-- Throughout a genetic_optimizer.py run the population consists of
input candidates and keeps at least `population_size` members. -/
theorem gen2PopulationAfter_inv (mrate : ℝ) (elite popsize : ℕ)
    (routes : List Route) (orc : Gen2Oracle) (hne : routes ≠ []) (g : ℕ) :
    (∀ r ∈ gen2PopulationAfter mrate elite popsize routes orc g, r ∈ routes) ∧
    popsize ≤ (gen2PopulationAfter mrate elite popsize routes orc g).length := by
  induction g with
  | zero =>
      constructor
      · intro r hr
        simp only [gen2PopulationAfter] at hr
        obtain ⟨k, _, hk⟩ := List.mem_map.mp hr
        rw [← hk]
        exact pyChoice_mem hne _
      · simp [gen2PopulationAfter]
  | succ n ih =>
      exact gen2Generation_inv mrate elite popsize routes orc n hne _ ih.1 ih.2

/-! ## C9 — both simple optimizer variants only pick existing candidates -/

/-- C9: whenever `ACOOptimizer.optimize` or `GeneticOptimizer.optimize`
returns a route, that route is one of the input candidates (same
identity and id), possibly with `optimization_method` written onto it;
selection, crossover and mutation never construct a new `Route`. -/
theorem optimizer_returns_input_candidate (alpha beta evap mrate : ℝ)
    (ants iterations elite popsize gens : ℕ) (sel2 : ℕ → ℕ → ℕ)
    (orc : Gen2Oracle) (routes : List Route) :
    (aco2Optimize alpha beta evap ants iterations sel2 routes).elim True
      (fun r => ∃ s ∈ routes, r = { s with optimization_method := "aco" } ∧
        r.id = s.id) ∧
    (gen2Optimize mrate elite popsize gens orc routes).elim True
      (fun r => ∃ s ∈ routes, (r = s ∨
        r = { s with optimization_method := "genetic" }) ∧ r.id = s.id) := by
  by_cases hne : routes = []
  · subst hne
    exact ⟨by simp [aco2Optimize], by simp [gen2Optimize]⟩
  · constructor
    · unfold aco2Optimize
      rw [if_neg hne]
      rcases hb : (aco2StateAfter alpha beta evap ants routes sel2 iterations).best
        with _ | ⟨br, bf⟩
      · simp
      · have hm := aco2StateAfter_best_mem alpha beta evap ants routes sel2
          hne iterations br bf hb
        simp only [Option.elim]
        exact ⟨br, hm, rfl, rfl⟩
    · unfold gen2Optimize
      rw [if_neg hne]
      by_cases hlt : routes.length < 2
      · rw [if_pos hlt]
        rcases routes with _ | ⟨r0, rest⟩
        · exact absurd rfl hne
        · simp only [List.head?_cons, Option.elim]
          exact ⟨r0, List.mem_cons_self _ _, Or.inl rfl, rfl⟩
      · rw [if_neg hlt]
        obtain ⟨hmem, -⟩ := gen2PopulationAfter_inv mrate elite popsize routes
          orc hne gens
        rcases hpop : gen2PopulationAfter mrate elite popsize routes orc gens
          with _ | ⟨p, rest⟩
        · simp
        · simp only [Option.elim]
          refine ⟨pyMinByKey Route.calculate_fitness_score p rest, ?_, Or.inr rfl, rfl⟩
          have hmin := pyMinByKey_mem Route.calculate_fitness_score p rest
          have : pyMinByKey Route.calculate_fitness_score p rest ∈
              gen2PopulationAfter mrate elite popsize routes orc gens := by
            rw [hpop]
            exact hmin
          exact hmem _ this

/-! ## Lemmas about the last-index scans of the splicer -/

/-- The last-index scan leaves its accumulator unchanged over a block
without id matches. -/
theorem lastIdx_foldl_const (wid : ℕ) (l : List Waypoint)
    (h : ∀ w ∈ l, w.id ≠ wid) :
    ∀ (start : ℕ) (init : ℤ),
      (l.enumFrom start).foldl
        (fun acc p => if p.2.id = wid then (p.1 : ℤ) else acc) init = init := by
  induction l with
  | nil => intro start init; rfl
  | cons a t ih =>
      intro start init
      rw [List.enumFrom_cons]
      simp only [List.foldl_cons]
      rw [if_neg (h a (List.mem_cons_self a t))]
      exact ih (fun w hw => h w (List.mem_cons_of_mem a hw)) (start + 1) init

/-- The last-index scan returns the position of a match that nothing
after it matches again. -/
theorem lastIdx_foldl_found (wid : ℕ) (l2 : List Waypoint)
    (h2 : ∀ w ∈ l2, w.id ≠ wid) :
    ∀ (l1 : List Waypoint) (w : Waypoint), w.id = wid →
    ∀ (start : ℕ) (init : ℤ),
      ((l1 ++ w :: l2).enumFrom start).foldl
        (fun acc p => if p.2.id = wid then (p.1 : ℤ) else acc) init =
        ((start + l1.length : ℕ) : ℤ) := by
  intro l1
  induction l1 with
  | nil =>
      intro w hw start init
      simp only [List.nil_append, List.enumFrom_cons, List.foldl_cons]
      rw [if_pos hw, lastIdx_foldl_const wid l2 h2]
      simp
  | cons a t ih =>
      intro w hw start init
      simp only [List.cons_append, List.enumFrom_cons, List.foldl_cons]
      rw [ih w hw (start + 1)]
      congr 1
      simp
      omega

/-- With pairwise-distinct waypoint ids, the last-index scan of
`_create_rerouted_path` returns exactly the position holding the id. -/
theorem lastIdxById_eq_of_nodup (l : List Waypoint)
    (hnodup : (l.map Waypoint.id).Nodup) (k : ℕ) (hk : k < l.length)
    (wid : ℕ) (hid : (l.getD k default).id = wid) :
    lastIdxById l wid = (k : ℤ) := by
  have hidk : l[k].id = wid := by
    rw [← List.getD_eq_getElem l default hk]
    exact hid
  have hafter : ∀ w ∈ l.drop (k + 1), w.id ≠ wid := by
    intro w hw
    obtain ⟨m, hm, hmw⟩ := List.mem_iff_getElem.mp hw
    have hlen : k + 1 + m < l.length := by
      have := hm
      simp only [List.length_drop] at this
      omega
    rw [List.getElem_drop] at hmw
    intro hcontra
    have hmapk : (l.map Waypoint.id).get ⟨k, by simpa using hk⟩ = wid := by
      simpa using hidk
    have hmapm : (l.map Waypoint.id).get ⟨k + 1 + m, by simpa using hlen⟩ = wid := by
      simp only [List.get_eq_getElem, List.getElem_map]
      rw [hmw]
      exact hcontra
    have heq : k + 1 + m = k := hnodup.getElem_inj_iff.mp (hmapm.trans hmapk.symm)
    omega
  have hdecomp : l = l.take k ++ l[k] :: l.drop (k + 1) := by
    conv_lhs => rw [← List.take_append_drop k l]
    rw [List.drop_eq_getElem_cons hk]
  have htk : (l.take k).length = k := by
    simp [List.length_take]
    omega
  unfold lastIdxById
  show (l.enumFrom 0).foldl _ _ = _
  conv_lhs => rw [hdecomp]
  rw [lastIdx_foldl_found wid (l.drop (k + 1)) hafter (l.take k) l[k] hidk 0 (-1)]
  rw [htk]
  simp

/-! ## C1 — a blocked first waypoint -/

/-- Counterexample to C1: when the FIRST waypoint of the registered
route is blocked, the adjuster's `handle_blocked_waypoint` does not
fail — it reroutes from the route's origin, produces a replacement and
publishes it to the registry under the original id. -/
theorem blocked_first_reroute_succeeds_counterexample :
    pyFindIdxById regRoute.waypoints 10 = some 0 ∧
    (handleBlockedWaypoint (fun _ _ _ => [altFixture]) (fun l => l.head?)
      regFixture 1 10).2 = some { altFixture with id := 1 } ∧
    (handleBlockedWaypoint (fun _ _ _ => [altFixture]) (fun l => l.head?)
      regFixture 1 10).1 1 = some { altFixture with id := 1 } :=
  ⟨rfl, rfl, rfl⟩

/-- C1 as amended: only `PPORerouter.reroute` (with no supplied current
position) always fails when the blocked waypoint is the first waypoint
of the route, regardless of the available alternatives;
`RouteAdjuster.handle_blocked_waypoint` instead falls back to rerouting
from the route's origin and can succeed. -/
theorem ppo_reroute_blocked_first_fails (geodist : ℝ × ℝ → ℝ × ℝ → ℝ)
    (freshIds : ℕ → ℕ) (newRouteId : ℕ) (blocked : Waypoint)
    (route : Route) (alts : List Route)
    (hfirst : pyIndex route.waypoints blocked = some 0) :
    ppoReroute geodist freshIds newRouteId blocked route alts none = none := by
  unfold ppoReroute
  by_cases ha : alts = []
  · rw [if_pos ha]
  · rw [if_neg ha]
    simp [hfirst]

/-- Witness for the amended C1 at the fixture route whose first
waypoint is the blocked one. -/
theorem ppo_reroute_blocked_first_fails_witness :
    pyIndex regRoute.waypoints wpA = some 0 ∧
    ppoReroute (fun _ _ => 0) (fun i => 100 + i) 7 wpA regRoute
      [altRouteWps] none = none :=
  ⟨by simp [pyIndex, regRoute],
   ppo_reroute_blocked_first_fails (fun _ _ => 0) (fun i => 100 + i) 7 wpA
     regRoute [altRouteWps] (by simp [pyIndex, regRoute])⟩

/-! ## C5 — what a failed reroute changes -/

/-- The first-index scan returns a valid position holding the id. -/
theorem pyFindIdxById_spec (l : List Waypoint) (wid : ℕ) :
    ∀ i, pyFindIdxById l wid = some i →
      i < l.length ∧ (l.getD i default).id = wid := by
  induction l with
  | nil =>
      intro i h
      simp [pyFindIdxById] at h
  | cons w rest ih =>
      intro i h
      unfold pyFindIdxById at h
      by_cases hw : w.id = wid
      · rw [if_pos hw] at h
        simp only [Option.some.injEq] at h
        subst h
        exact ⟨Nat.succ_pos _, hw⟩
      · rw [if_neg hw] at h
        cases hmap : pyFindIdxById rest wid with
        | none =>
            rw [hmap] at h
            simp at h
        | some j =>
            rw [hmap] at h
            simp at h
            obtain ⟨hj, hid⟩ := ih j hmap
            subst h
            exact ⟨by simpa using Nat.succ_lt_succ hj, by simpa using hid⟩

/-- Counterexample to C5: a failed reroute (no optimized alternative)
leaves the route registered, but changes the status of TWO waypoints:
the blocked one becomes `blocked` and its predecessor becomes
`active` — the original route had all three waypoints `pending`. -/
theorem failed_reroute_marks_predecessor_counterexample :
    (handleBlockedWaypoint (fun _ _ _ => []) (fun _ => none)
      regFixture 1 11).2 = none ∧
    (((handleBlockedWaypoint (fun _ _ _ => []) (fun _ => none)
        regFixture 1 11).1 1).getD default).waypoints.map Waypoint.status =
      [WaypointStatus.active, WaypointStatus.blocked, WaypointStatus.pending] ∧
    regRoute.waypoints.map Waypoint.status =
      [WaypointStatus.pending, WaypointStatus.pending, WaypointStatus.pending] :=
  ⟨rfl, rfl, rfl⟩

/-- The status effect of blocking: every position other than the
blocked index and (when the blocked index is positive) its predecessor
is untouched; the blocked position only changes status to `blocked`;
the predecessor only changes status to `active`. -/
theorem blockAndActivate_getD (wps : List Waypoint) (bi : ℕ)
    (hbi : bi < wps.length) :
    ∀ j, j < wps.length →
      (j ≠ bi → ¬(0 < bi ∧ j = bi - 1) →
        (blockAndActivate wps bi).getD j default = wps.getD j default) ∧
      (j = bi → (blockAndActivate wps bi).getD j default =
        { wps.getD j default with status := WaypointStatus.blocked }) ∧
      (0 < bi → j = bi - 1 → (blockAndActivate wps bi).getD j default =
        { wps.getD j default with status := WaypointStatus.active }) := by
  intro j hj
  unfold blockAndActivate
  by_cases h0 : 0 < bi
  · simp only [if_pos h0]
    refine ⟨?_, ?_, ?_⟩
    · intro hne hnpred
      have hnp2 : j ≠ bi - 1 := fun hc => hnpred ⟨h0, hc⟩
      rw [List.getD_eq_getElem _ default (by simpa using hj),
        List.getElem_set, if_neg (fun hc => hnp2 hc.symm),
        List.getElem_set, if_neg (fun hc => hne hc.symm),
        List.getD_eq_getElem _ default hj]
    · intro hbj
      subst hbj
      rw [List.getD_eq_getElem _ default (by simpa using hj),
        List.getElem_set, if_neg (by omega),
        List.getElem_set, if_pos rfl]
    · intro _ hpj
      subst hpj
      have hpred : (wps.set bi { wps.getD bi default with
          status := WaypointStatus.blocked }).getD (bi - 1) default =
          wps.getD (bi - 1) default := by
        rw [List.getD_eq_getElem _ default (by simpa using hj),
          List.getElem_set, if_neg (by omega),
          List.getD_eq_getElem _ default hj]
      rw [List.getD_eq_getElem _ default (by simpa using hj),
        List.getElem_set, if_pos rfl, hpred]
  · simp only [if_neg h0]
    refine ⟨?_, ?_, fun hc _ => absurd hc h0⟩
    · intro hne _
      rw [List.getD_eq_getElem _ default (by simpa using hj),
        List.getElem_set, if_neg (fun hc => hne hc.symm),
        List.getD_eq_getElem _ default hj]
    · intro hbj
      subst hbj
      rw [List.getD_eq_getElem _ default (by simpa using hj),
        List.getElem_set, if_pos rfl]

/-- C5 as amended: when a reroute fails after the route and waypoint
lookups succeed (the optimizer yields no candidate), the registry keys
are unchanged and the route stays registered under its id with all
fields intact except its waypoint list, which becomes
`blockAndActivate`: the blocked waypoint's status becomes `blocked`
AND, unless the blocked waypoint is first, the preceding waypoint's
status becomes `active`; every other waypoint is untouched. -/
theorem failed_reroute_preserves_registry_and_statuses
    (gen : Option Airport → Option Airport → ExcludedArea → List Route)
    (opt : List Route → Option Route) (registry : ℕ → Option Route)
    (rid wid : ℕ) (route : Route) (bi : ℕ)
    (hreg : registry rid = some route)
    (hfind : pyFindIdxById route.waypoints wid = some bi)
    (hopt : ∀ l, opt l = none) :
    (handleBlockedWaypoint gen opt registry rid wid).2 = none ∧
    (∀ k, k ≠ rid →
      (handleBlockedWaypoint gen opt registry rid wid).1 k = registry k) ∧
    (handleBlockedWaypoint gen opt registry rid wid).1 rid =
      some { route with waypoints := blockAndActivate route.waypoints bi } ∧
    (blockAndActivate route.waypoints bi).length = route.waypoints.length ∧
    ∀ j, j < route.waypoints.length →
      (j ≠ bi → ¬(0 < bi ∧ j = bi - 1) →
        (blockAndActivate route.waypoints bi).getD j default =
          route.waypoints.getD j default) ∧
      (j = bi → (blockAndActivate route.waypoints bi).getD j default =
        { route.waypoints.getD j default with
          status := WaypointStatus.blocked }) ∧
      (0 < bi → j = bi - 1 →
        (blockAndActivate route.waypoints bi).getD j default =
        { route.waypoints.getD j default with
          status := WaypointStatus.active }) := by
  obtain ⟨hbilen, -⟩ := pyFindIdxById_spec route.waypoints wid bi hfind
  have hmain : handleBlockedWaypoint gen opt registry rid wid =
      (fun k => if k = rid then
          some { route with waypoints := blockAndActivate route.waypoints bi }
        else registry k, none) := by
    unfold handleBlockedWaypoint blockAndActivate
    simp only [hreg, hfind, hopt]
    by_cases h0 : 0 < bi <;> simp [h0]
  rw [hmain]
  refine ⟨rfl, fun k hk => by simp [hk], by simp, ?_,
    blockAndActivate_getD route.waypoints bi hbilen⟩
  unfold blockAndActivate
  by_cases h0 : 0 < bi <;> simp [h0]

/-- Witness for the amended C5 at the fixture registry, blocking the
middle waypoint with an optimizer that yields nothing. -/
theorem failed_reroute_preserves_registry_and_statuses_witness :
    regFixture 1 = some regRoute ∧
    pyFindIdxById regRoute.waypoints 11 = some 1 ∧
    ((handleBlockedWaypoint (fun _ _ _ => []) (fun _ => none)
        regFixture 1 11).2 = none ∧
     (∀ k, k ≠ 1 →
       (handleBlockedWaypoint (fun _ _ _ => []) (fun _ => none)
         regFixture 1 11).1 k = regFixture k) ∧
     (handleBlockedWaypoint (fun _ _ _ => []) (fun _ => none)
         regFixture 1 11).1 1 =
       some { regRoute with waypoints := blockAndActivate regRoute.waypoints 1 } ∧
     (blockAndActivate regRoute.waypoints 1).length = regRoute.waypoints.length ∧
     ∀ j, j < regRoute.waypoints.length →
       (j ≠ 1 → ¬(0 < 1 ∧ j = 1 - 1) →
         (blockAndActivate regRoute.waypoints 1).getD j default =
           regRoute.waypoints.getD j default) ∧
       (j = 1 → (blockAndActivate regRoute.waypoints 1).getD j default =
         { regRoute.waypoints.getD j default with
           status := WaypointStatus.blocked }) ∧
       (0 < 1 → j = 1 - 1 →
         (blockAndActivate regRoute.waypoints 1).getD j default =
         { regRoute.waypoints.getD j default with
           status := WaypointStatus.active })) :=
  ⟨rfl, rfl,
   failed_reroute_preserves_registry_and_statuses (fun _ _ _ => [])
     (fun _ => none) regFixture 1 11 regRoute 1 rfl rfl (fun _ => rfl)⟩

/-! ## C2 — the spliced route -/

/-- Renumbering the prefix copies preserves id, latitude and
longitude. -/
theorem prefix_proj_eq (l : List Waypoint) :
    (l.enum.map (fun p => { p.2 with order := p.1 + 1 })).map
      (fun w => (w.id, w.latitude, w.longitude)) =
    l.map (fun w => (w.id, w.latitude, w.longitude)) := by
  rw [List.map_map]
  have h1 : ((fun w : Waypoint => (w.id, w.latitude, w.longitude)) ∘
      (fun p : ℕ × Waypoint => { p.2 with order := p.1 + 1 })) =
      ((fun w : Waypoint => (w.id, w.latitude, w.longitude)) ∘ Prod.snd) := rfl
  rw [h1, ← List.map_map, List.enum_map_snd]

/-- Distinct positions hold distinct ids when the id list has no
duplicates. -/
theorem id_ne_of_nodup (l : List Waypoint)
    (hnodup : (l.map Waypoint.id).Nodup) {m k : ℕ} (hm : m < l.length)
    (hk : k < l.length) (hne : m ≠ k) : l[m].id ≠ l[k].id := by
  intro hc
  have h1 : (l.map Waypoint.id).get ⟨m, by simpa using hm⟩ =
      (l.map Waypoint.id).get ⟨k, by simpa using hk⟩ := by
    simpa using hc
  have h2 := hnodup.get_inj_iff.mp h1
  exact hne (congrArg Fin.val h2)

/-- C2: in the default reroute flow — distinct waypoint ids, the
current position at index `ci` strictly before the blocked waypoint at
index `bi`, and fresh uuid draws never colliding with the blocked
id — the spliced route of `_create_rerouted_path` contains no waypoint
with the blocked waypoint's id, and its prefix up through the
current-position waypoint is identical in id, latitude and longitude
to the original route's prefix. -/
theorem spliced_route_excludes_blocked_and_keeps_prefix
    (geodist : ℝ × ℝ → ℝ × ℝ → ℝ) (freshIds : ℕ → ℕ) (newRouteId : ℕ)
    (current_route : Route) (blocked_waypoint current_position : Waypoint)
    (alternative_route : Route) (target_index : ℕ) (ci bi : ℕ)
    (hnodup : (current_route.waypoints.map Waypoint.id).Nodup)
    (hlt : ci < bi) (hbi : bi < current_route.waypoints.length)
    (hcid : (current_route.waypoints.getD ci default).id = current_position.id)
    (hbid : (current_route.waypoints.getD bi default).id = blocked_waypoint.id)
    (hfresh : ∀ i, freshIds i ≠ blocked_waypoint.id) :
    (∀ w ∈ (createReroutedPath geodist freshIds newRouteId current_route
        blocked_waypoint current_position alternative_route target_index).waypoints,
      w.id ≠ blocked_waypoint.id) ∧
    ((createReroutedPath geodist freshIds newRouteId current_route
        blocked_waypoint current_position alternative_route
        target_index).waypoints.take (ci + 1)).map
        (fun w => (w.id, w.latitude, w.longitude)) =
      (current_route.waypoints.take (ci + 1)).map
        (fun w => (w.id, w.latitude, w.longitude)) := by
  have hcplen : ci < current_route.waypoints.length := lt_trans hlt hbi
  have hci' := lastIdxById_eq_of_nodup _ hnodup ci hcplen _ hcid
  have hbi' := lastIdxById_eq_of_nodup _ hnodup bi hbi _ hbid
  have hbidElem : current_route.waypoints[bi].id = blocked_waypoint.id := by
    rw [← List.getD_eq_getElem _ default hbi]
    exact hbid
  have htoNat : ((ci : ℤ) + 1).toNat = ci + 1 := by omega
  have hwps : (createReroutedPath geodist freshIds newRouteId current_route
      blocked_waypoint current_position alternative_route target_index).waypoints =
      (current_route.waypoints.take (ci + 1)).enum.map
        (fun p => { p.2 with order := p.1 + 1 }) ++
      ((let waypoints_alt0 := alternative_route.waypoints.drop target_index
        if current_route.waypoints.length -
            (current_route.waypoints.take (ci + 1)).length <
            waypoints_alt0.length then
          waypoints_alt0.take (current_route.waypoints.length -
            (current_route.waypoints.take (ci + 1)).length)
        else waypoints_alt0).enum.map (fun p =>
        { p.2 with
          id := freshIds p.1,
          name := "WP" ++ toString (((current_route.waypoints.take
            (ci + 1)).enum.map (fun p => { p.2 with order := p.1 + 1 })).length +
            1 + p.1) ++ "_" ++ extractRouteType p.2.name,
          order := ((current_route.waypoints.take (ci + 1)).enum.map
            (fun p => { p.2 with order := p.1 + 1 })).length + 1 + p.1 })) := by
    simp only [createReroutedPath]
    rw [hci', hbi']
    rw [if_neg (by omega : ¬((ci : ℤ) = -1))]
    rw [if_pos ⟨by omega, by exact_mod_cast hlt⟩]
    rw [htoNat]
  rw [hwps]
  generalize ((let waypoints_alt0 := alternative_route.waypoints.drop target_index
    if current_route.waypoints.length -
        (current_route.waypoints.take (ci + 1)).length < waypoints_alt0.length then
      waypoints_alt0.take (current_route.waypoints.length -
        (current_route.waypoints.take (ci + 1)).length)
    else waypoints_alt0) : List Waypoint) = SUF
  have hAlen : ((current_route.waypoints.take (ci + 1)).enum.map
      (fun p => { p.2 with order := p.1 + 1 })).length = ci + 1 := by
    simp [List.length_take]
    omega
  constructor
  · intro w hw
    rcases List.mem_append.mp hw with hw | hw
    · obtain ⟨p, hp, hpw⟩ := List.mem_map.mp hw
      have hsnd : p.2 ∈ current_route.waypoints.take (ci + 1) := by
        have : p.2 ∈ (current_route.waypoints.take (ci + 1)).enum.map Prod.snd :=
          List.mem_map.mpr ⟨p, hp, rfl⟩
        rwa [List.enum_map_snd] at this
      obtain ⟨m, hm, hmp⟩ := List.mem_iff_getElem.mp hsnd
      have hmlt : m < ci + 1 := by
        have := hm
        simp only [List.length_take] at this
        omega
      have hmlen : m < current_route.waypoints.length := by omega
      have hmElem : current_route.waypoints[m] = p.2 := by
        rw [← hmp, List.getElem_take]
      have hwid : w.id = p.2.id := by rw [← hpw]
      rw [hwid, ← hmElem, ← hbidElem]
      exact id_ne_of_nodup _ hnodup hmlen hbi (by omega)
    · obtain ⟨p, hp, hpw⟩ := List.mem_map.mp hw
      have hwid : w.id = freshIds p.1 := by rw [← hpw]
      rw [hwid]
      exact hfresh p.1
  · rw [List.take_left' hAlen, prefix_proj_eq]

/-- Witness for C2 at the fixture route, splicing around the third
waypoint from the second onto the one-waypoint alternative. -/
theorem spliced_route_excludes_blocked_and_keeps_prefix_witness :
    (regRoute.waypoints.map Waypoint.id).Nodup ∧
    1 < 2 ∧ 2 < regRoute.waypoints.length ∧
    (regRoute.waypoints.getD 1 default).id = wpB.id ∧
    (regRoute.waypoints.getD 2 default).id = wpC.id ∧
    (∀ i : ℕ, 100 + i ≠ wpC.id) ∧
    ((∀ w ∈ (createReroutedPath (fun _ _ => 0) (fun i => 100 + i) 7 regRoute
        wpC wpB altRouteWps 0).waypoints, w.id ≠ wpC.id) ∧
      ((createReroutedPath (fun _ _ => 0) (fun i => 100 + i) 7 regRoute
          wpC wpB altRouteWps 0).waypoints.take (1 + 1)).map
          (fun w => (w.id, w.latitude, w.longitude)) =
        (regRoute.waypoints.take (1 + 1)).map
          (fun w => (w.id, w.latitude, w.longitude))) :=
  ⟨by decide, by decide, by decide, by decide, by decide,
   fun i => by
     rw [show wpC.id = 12 from rfl]
     omega,
   spliced_route_excludes_blocked_and_keeps_prefix (fun _ _ => 0)
     (fun i => 100 + i) 7 regRoute wpC wpB altRouteWps 0 1 2 (by decide)
     (by decide) (by decide) (by decide) (by decide)
     (fun i => by
       show 100 + i ≠ wpC.id
       rw [show wpC.id = 12 from rfl]
       omega)⟩

end FlightOpt
